import Mathlib

/-!
# Verification of the evolutionary-algorithms optimization engine

This file gives a shallow embedding, in Lean 4, of the optimization engine of
the `evolutionary-algorithms-visualization` repository: the problem abstraction
(`Problem.ts` / `ContinuousFunctions.ts`), the individual/population data
model (`types.ts`), and the six algorithm implementations (Genetic Algorithm
and Evolution Strategy in `GeneticAlgorithm.ts`/`EvolutionStrategy.ts`,
`DifferentialEvolution.ts`, `ParticleSwarmOptimization.ts`,
`ArtificialBeeColony.ts`, `SimulatedAnnealing.ts`).

Modelling conventions:

* JavaScript numbers are modelled as exact rationals (`ℚ`).  Transcendental
  primitives used by the source (`Math.sqrt`, `Math.exp`, `Math.log`,
  `Math.cos`, `Math.PI`) are irrational-valued and are modelled as an
  abstract environment `Env` of rational-valued functions; every theorem
  quantifies over all such environments, so nothing proved here depends on
  the numeric values those primitives return.
* The global `Math.random()` stream is modelled as an explicit stream of
  rationals with a cursor (`Rng`), threaded through every function exactly in
  the order the source draws from it.
* A JavaScript read that would yield `undefined` (out-of-bounds array index,
  `reduce` over an empty array with an element as seed) is modelled with a
  `getD`/`headD` default; theorems carry the preconditions under which the
  source code does not perform such reads.
* Loops whose termination depends on the random stream (the ABC onlooker
  phase, the ABC random-partner retry loop, the Evolution Strategy
  `randomNormal` redraw loop) are modelled with explicit fuel and return
  `Option`; `none` means the source loop has not exited within the given
  fuel.
-/

/-- Stream of `Math.random()` draws with a cursor: draw `pos` is `stream pos`. -/
structure Rng where
  stream : ℕ → ℚ
  pos : ℕ

/-- Consume one `Math.random()` draw. -/
def Rng.next (r : Rng) : ℚ × Rng :=
  (r.stream r.pos, { r with pos := r.pos + 1 })

/-- Build a stream from a finite list of draws, padded with a default draw. -/
def listRng (l : List ℚ) (pad : ℚ) : Rng :=
  ⟨fun n => l.getD n pad, 0⟩

/-- Genotype: real vector (`number[]` in the source). -/
abbrev Vec := List ℚ

/-- JavaScript `Math.floor(q * n)` cast to an array index (`types.ts` callers
use it only with `q` a `Math.random()` draw, hence nonnegative). -/
def floorIdx (q : ℚ) (n : ℕ) : ℕ :=
  (Int.floor (q * (n : ℚ))).toNat

/-- An `Individual<number[]>` from `types.ts`: genotype plus fitness. -/
structure Individual where
  genotype : Vec
  fitness : ℚ
deriving DecidableEq, Repr

instance : Inhabited Individual := ⟨⟨[], 0⟩⟩

/-- The three parallel history sequences of `AlgorithmStats` (`types.ts`). -/
structure StatsHistory where
  bestFitness : List ℚ
  averageFitness : List ℚ
  diversity : List ℚ
deriving DecidableEq, Repr

/-- Per-generation statistics snapshot (`AlgorithmStats` in `types.ts`). -/
structure AlgorithmStats where
  currentGeneration : ℕ
  bestFitness : ℚ
  averageFitness : ℚ
  diversityMeasure : ℚ
  history : StatsHistory
deriving DecidableEq, Repr

/-- The empty statistics record every algorithm constructs in its
constructor and in `reset()`. -/
def emptyStats : AlgorithmStats :=
  { currentGeneration := 0
    bestFitness := 0
    averageFitness := 0
    diversityMeasure := 0
    history := { bestFitness := [], averageFitness := [], diversity := [] } }

/-- Abstract environment for the transcendental `Math` primitives the source
uses.  They are irrational-valued on floats; the embedding treats them as
arbitrary rational-valued functions and every theorem quantifies over them. -/
structure Env where
  sqrtFn : ℚ → ℚ
  expFn : ℚ → ℚ
  logFn : ℚ → ℚ
  cosFn : ℚ → ℚ
  piVal : ℚ

/-- A trivial environment, used to instantiate witnesses. -/
def zeroEnv : Env :=
  { sqrtFn := fun _ => 0, expFn := fun _ => 0, logFn := fun _ => 0
    cosFn := fun _ => 0, piVal := 0 }

/-- An `OptimizationProblem` (`types.ts`): dimension, per-dimension bounds,
minimization flag, and the objective.  The objective is an arbitrary total
function: the concrete benchmark bodies (e.g. `SphereFunction.evaluate`)
are total and are given separately below. -/
structure ProblemDef where
  dimension : ℕ
  bounds : List (ℚ × ℚ)
  isMinimization : Bool
  objective : Vec → ℚ

/-- Clamp of one component used by `Problem.repair` (`Problem.ts`): first
`if (x < min) x = min;` then `if (x > max) x = max;`. -/
def clampComp (b : ℚ × ℚ) (x : ℚ) : ℚ :=
  let x1 := if x < b.1 then b.1 else x
  if x1 > b.2 then b.2 else x1

/-- Index-threaded worker for `Problem.repair`: the source loops
`for (i = 0; i < dimension; i++)` clamping `repairedSolution[i]`; components
at indices at or beyond `dimension` are left untouched. -/
def repairAux (bounds : List (ℚ × ℚ)) (dimension : ℕ) : ℕ → Vec → Vec
  | _, [] => []
  | i, x :: xs =>
      (if i < dimension then clampComp (bounds.getD i (0, 0)) x else x)
        :: repairAux bounds dimension (i + 1) xs

/-- `Problem.repair(solution)` from `src/problems/Problem.ts`: copies the
vector and clamps each of the first `dimension` components into its bound. -/
def ProblemDef.repair (p : ProblemDef) (v : Vec) : Vec :=
  repairAux p.bounds p.dimension 0 v

/-- `Problem.isInBounds(solution)` from `src/problems/Problem.ts`: `false` on a
length mismatch, otherwise checks every component against its bound. -/
def ProblemDef.isInBounds (p : ProblemDef) (v : Vec) : Bool :=
  if v.length ≠ p.dimension then false
  else decide (∀ i < p.dimension,
    (p.bounds.getD i (0, 0)).1 ≤ v.getD i 0 ∧ v.getD i 0 ≤ (p.bounds.getD i (0, 0)).2)

/-- Worker for `generateRandomSolution`: `bounds.map(([min,max]) => min +
Math.random() * (max - min))`, one draw per dimension, in order. -/
def genRandomAux : List (ℚ × ℚ) → Rng → Vec × Rng
  | [], r => ([], r)
  | b :: bs, r =>
      let d := r.next
      let rest := genRandomAux bs d.2
      ((b.1 + d.1 * (b.2 - b.1)) :: rest.1, rest.2)

/-- `Problem.generateRandomSolution()` from `src/problems/Problem.ts`. -/
def ProblemDef.generateRandomSolution (p : ProblemDef) (r : Rng) : Vec × Rng :=
  genRandomAux p.bounds r

/-- The `evaluate` closure installed by `createProblemFromConfig`
(`ContinuousFunctions.ts`): throws (modelled as `Except.error`) when the
supplied vector's length differs from `problem.dimension`, otherwise calls
the registered evaluator for the problem id. -/
def registryEvaluate (p : ProblemDef) (v : Vec) : Except String ℚ :=
  if v.length ≠ p.dimension then
    Except.error "Solution dimension does not match problem dimension"
  else
    Except.ok (p.objective v)

/-- `SphereFunction.evaluate` from the class-based benchmark library
(`ContinuousFunctions.ts` classes, used by `createProblem` in the
visualization utilities): `solution.reduce((sum, value) => sum + value *
value, 0)`.  The body performs no dimension check and cannot throw, so it is
modelled as a total function. -/
def sphereClassEvaluate (v : Vec) : ℚ :=
  v.foldl (fun sum value => sum + value * value) 0

/-- The class-based `SphereFunction` with its constructor defaults
(`dimension` argument, bounds `[-5.12, 5.12]` in every dimension,
minimization). -/
def sphereProblem (dimension : ℕ) : ProblemDef :=
  { dimension := dimension
    bounds := List.replicate dimension (-(512/100 : ℚ), (512/100 : ℚ))
    isMinimization := true
    objective := sphereClassEvaluate }

/-! ## Simulated Annealing (`SimulatedAnnealing.ts`) -/

/-- `SimulatedAnnealingParams`: the fields the constructor populates. -/
structure SAParams where
  populationSize : ℕ
  maxGenerations : ℕ
  initialTemperature : ℚ
  coolingRate : ℚ
  neighborhoodSize : ℚ
  minTemperature : ℚ
deriving DecidableEq, Repr

/-- The constructor defaults of `SimulatedAnnealing`. -/
def saDefaultParams : SAParams :=
  { populationSize := 1, maxGenerations := 1000, initialTemperature := 100
    coolingRate := 95/100, neighborhoodSize := 1/10, minTemperature := 1/100 }

/-- A partial `AlgorithmParams` object passed to `initialize`/`setParams`;
absent fields (`undefined` in JS) are `none` and the source's object spread
`{ ...this.params, ...params }` keeps the old value for them. -/
structure SAParamsPatch where
  populationSize : Option ℕ := none
  maxGenerations : Option ℕ := none
  initialTemperature : Option ℚ := none
  coolingRate : Option ℚ := none
  neighborhoodSize : Option ℚ := none
  minTemperature : Option ℚ := none
deriving DecidableEq, Repr

/-- Object spread `{ ...this.params, ...params }` for SA parameters. -/
def SAParams.merge (pr : SAParams) (patch : SAParamsPatch) : SAParams :=
  { populationSize := patch.populationSize.getD pr.populationSize
    maxGenerations := patch.maxGenerations.getD pr.maxGenerations
    initialTemperature := patch.initialTemperature.getD pr.initialTemperature
    coolingRate := patch.coolingRate.getD pr.coolingRate
    neighborhoodSize := patch.neighborhoodSize.getD pr.neighborhoodSize
    minTemperature := patch.minTemperature.getD pr.minTemperature }

/-- The mutable instance state of a `SimulatedAnnealing` object, plus the
position of the global `Math.random()` stream. -/
structure SAState where
  params : SAParams
  population : List Individual
  current : Option Individual
  best : Option Individual
  temperature : ℚ
  iteration : ℕ
  stats : AlgorithmStats
  rng : Rng

/-- `SimulatedAnnealing.isBetter(fitnessA, fitnessB)`: direction-aware
comparison (SA does not negate fitnesses). -/
def saIsBetter (p : ProblemDef) (fitnessA fitnessB : ℚ) : Bool :=
  if p.isMinimization then fitnessA < fitnessB else fitnessA > fitnessB

/-- `SimulatedAnnealing.evaluateFitness(solution)`: the raw problem value. -/
def saEvaluateFitness (p : ProblemDef) (v : Vec) : ℚ :=
  p.objective v

/-- Worker for `generateNeighbor`: perturb each dimension with probability
1/2 (one draw for the coin, one more for the magnitude when it hits). -/
def saNeighborAux (p : ProblemDef) (nbhd : ℚ) : ℕ → Vec → Rng → Vec × Rng
  | _, [], r => ([], r)
  | i, x :: xs, r =>
      let d1 := r.next
      if d1.1 < 1/2 then
        let d2 := d1.2.next
        let range := (p.bounds.getD i (0, 0)).2 - (p.bounds.getD i (0, 0)).1
        let rest := saNeighborAux p nbhd (i + 1) xs d2.2
        ((x + (d2.1 * 2 - 1) * range * nbhd) :: rest.1, rest.2)
      else
        let rest := saNeighborAux p nbhd (i + 1) xs d1.2
        (x :: rest.1, rest.2)

/-- `SimulatedAnnealing.generateNeighbor(solution)`: perturb then repair
(every problem defines `repair`, so the `ensureWithinBounds` fallback branch
is dead code). -/
def saGenerateNeighbor (p : ProblemDef) (nbhd : ℚ) (sol : Vec) (r : Rng) : Vec × Rng :=
  let nb := saNeighborAux p nbhd 0 sol r
  (p.repair nb.1, nb.2)

/-- `SimulatedAnnealing.calculateAcceptanceProbability`: 1 for an improving
move, otherwise `Math.exp(-delta / T)` (via the abstract `Env.expFn`). -/
def saAcceptanceProbability (env : Env) (p : ProblemDef) (T currentFitness newFitness : ℚ) : ℚ :=
  if saIsBetter p newFitness currentFitness then 1
  else
    let delta := if p.isMinimization then newFitness - currentFitness
                 else currentFitness - newFitness
    env.expFn (-delta / T)

/-- `SimulatedAnnealing.updateStats()`: no-op on an empty population,
otherwise rebuild the stats snapshot and append one record to each history
sequence (`this.current!` / `this.best!` are modelled with a junk default;
every theorem below guarantees they are set). -/
def saUpdateStats (s : SAState) : SAState :=
  if s.population.length = 0 then s
  else
    let currentFitness := (s.current.getD default).fitness
    let bestFitness := (s.best.getD default).fitness
    { s with stats :=
        { currentGeneration := s.iteration
          bestFitness := bestFitness
          averageFitness := currentFitness
          diversityMeasure := 0
          history :=
            { bestFitness := s.stats.history.bestFitness ++ [bestFitness]
              averageFitness := s.stats.history.averageFitness ++ [currentFitness]
              diversity := s.stats.history.diversity ++ [0] } } }

/-- `SimulatedAnnealing.initializePopulation()`. -/
def saInitializePopulation (p : ProblemDef) (s : SAState) : SAState :=
  let g := p.generateRandomSolution s.rng
  let fitness := saEvaluateFitness p g.1
  let cur : Individual := ⟨g.1, fitness⟩
  saUpdateStats { s with current := some cur, best := some cur,
                         population := [cur], rng := g.2 }

/-- `SimulatedAnnealing.step()`: implicit initialization when no current
solution exists; otherwise neighbor generation, probabilistic acceptance,
geometric cooling, iteration count and stats. -/
def saStep (env : Env) (p : ProblemDef) (s : SAState) : SAState :=
  match s.current with
  | none => saInitializePopulation p s
  | some cur =>
      let nb := saGenerateNeighbor p s.params.neighborhoodSize cur.genotype s.rng
      let neighborFitness := saEvaluateFitness p nb.1
      let prob := saAcceptanceProbability env p s.temperature cur.fitness neighborFitness
      let d := nb.2.next
      let s1 :=
        if d.1 < prob then
          let newCur : Individual := ⟨nb.1, neighborFitness⟩
          let newBest :=
            if saIsBetter p neighborFitness ((s.best.getD default).fitness)
            then some newCur else s.best
          { s with current := some newCur, population := s.population.set 0 newCur,
                   best := newBest, rng := d.2 }
        else { s with rng := d.2 }
      let s2 := { s1 with temperature := s1.temperature * s1.params.coolingRate,
                          iteration := s1.iteration + 1 }
      saUpdateStats s2

/-- `SimulatedAnnealing.reset()`. -/
def saReset (s : SAState) : SAState :=
  { s with population := [], current := none, best := none,
           temperature := s.params.initialTemperature, iteration := 0, stats := emptyStats }

/-- `SimulatedAnnealing.setParams(params)`: merge, then reset the
temperature to the (possibly new) initial temperature. -/
def saSetParams (s : SAState) (patch : SAParamsPatch) : SAState :=
  let params := s.params.merge patch
  { s with params := params, temperature := params.initialTemperature }

/-- `SimulatedAnnealing.initialize(params)`: merge, set the temperature,
then `reset()` (which sets the temperature again and clears the state). -/
def saInitialize (s : SAState) (patch : SAParamsPatch) : SAState :=
  let params := s.params.merge patch
  saReset { s with params := params, temperature := params.initialTemperature }

/-! ## Shared helpers used by several algorithms -/

/-- JavaScript `population.reduce((best, current) => current.fitness >
best.fitness ? current : best, population[0])`, as used by
`DifferentialEvolution.updateBest`, `EvolutionStrategy.updateBest` and
`ParticleSwarmOptimization.updateGlobalBest` (the seed `population[0]` is
`undefined` on an empty population in JS; modelled with `headD default`). -/
def reduceBest (pop : List Individual) : Individual :=
  pop.foldl (fun best current => if current.fitness > best.fitness then current else best)
    (pop.headD default)

/-- Accumulator worker for the per-pair squared distance sum
(`euclideanDistance` in each algorithm source file). -/
def sumSqDiffAux (b : Vec) : ℕ → ℚ → Vec → ℚ
  | _, sum, [] => sum
  | i, sum, x :: xs => sumSqDiffAux b (i + 1) (sum + (x - b.getD i 0) ^ 2) xs

/-- The `euclideanDistance(a, b)` helper each algorithm defines:
`Math.sqrt(a.reduce((sum, val, i) => sum + (val - b[i])^2, 0))`. -/
def euclideanDistance (env : Env) (a b : Vec) : ℚ :=
  env.sqrtFn (sumSqDiffAux b 0 0 a)

/-- Sum of pairwise distances over all index pairs `i < j`, in the order the
source's double loop visits them. -/
def pairwiseSum (env : Env) : List Individual → ℚ
  | [] => 0
  | x :: xs =>
      xs.foldl (fun acc y => acc + euclideanDistance env x.genotype y.genotype) 0 +
        pairwiseSum env xs

/-- The diversity measure computed in every `updateStats`/
`calculateDiversity`: average pairwise Euclidean distance, `0` when there
are no pairs. -/
def diversityOf (env : Env) (pop : List Individual) : ℚ :=
  let pc : ℕ := pop.length * (pop.length - 1) / 2
  if 0 < pc then pairwiseSum env pop / (pc : ℚ) else 0

/-- Sum of fitness values (`population.reduce((sum, ind) => sum +
ind.fitness, 0)`). -/
def totalFitnessOf (pop : List Individual) : ℚ :=
  pop.foldl (fun sum ind => sum + ind.fitness) 0

/-! ## Differential Evolution (`DifferentialEvolution.ts`) -/

/-- The four DE mutation strategies. -/
inductive DEStrategy
  | rand1
  | best1
  | rand2
  | best2
deriving DecidableEq, Repr

/-- `DifferentialEvolutionParams`. -/
structure DEParams where
  populationSize : ℕ
  maxGenerations : ℕ
  F : ℚ
  CR : ℚ
  strategy : DEStrategy
deriving DecidableEq, Repr

/-- The constructor defaults of `DifferentialEvolution`. -/
def deDefaultParams : DEParams :=
  { populationSize := 50, maxGenerations := 100, F := 1/2, CR := 7/10
    strategy := DEStrategy.rand1 }

/-- Partial parameter object for DE `initialize`/`setParams`. -/
structure DEParamsPatch where
  populationSize : Option ℕ := none
  maxGenerations : Option ℕ := none
  F : Option ℚ := none
  CR : Option ℚ := none
  strategy : Option DEStrategy := none
deriving DecidableEq, Repr

/-- Object spread `{ ...this.params, ...params }` for DE parameters. -/
def DEParams.merge (pr : DEParams) (patch : DEParamsPatch) : DEParams :=
  { populationSize := patch.populationSize.getD pr.populationSize
    maxGenerations := patch.maxGenerations.getD pr.maxGenerations
    F := patch.F.getD pr.F
    CR := patch.CR.getD pr.CR
    strategy := patch.strategy.getD pr.strategy }

/-- The mutable instance state of a `DifferentialEvolution` object. -/
structure DEState where
  params : DEParams
  population : List Individual
  best : Option Individual
  generation : ℕ
  stats : AlgorithmStats
  rng : Rng

/-- `DifferentialEvolution.evaluateFitness`: negate a minimization
problem's value so the algorithm maximizes internally. -/
def deEvaluateFitness (p : ProblemDef) (g : Vec) : ℚ :=
  let fitness := p.objective g
  if p.isMinimization then -fitness else fitness

/-- JavaScript array destructuring swap
`[a[i], a[j]] = [a[j], a[i]]` (both reads happen before the writes). -/
def listSwap (l : List ℕ) (i j : ℕ) : List ℕ :=
  (l.set i (l.getD j 0)).set j (l.getD i 0)

/-- The Fisher-Yates loop of `getRandomIndices`:
`for (i = len-1; i > 0; i--) { j = floor(random() * (i+1)); swap }`.
The argument is the current loop index `i`. -/
def shuffleFrom : ℕ → List ℕ → Rng → List ℕ × Rng
  | 0, l, r => (l, r)
  | k + 1, l, r =>
      let d := r.next
      let j := floorIdx d.1 (k + 2)
      shuffleFrom k (listSwap l (k + 1) j) d.2

/-- `DifferentialEvolution.getRandomIndices(popSize, excludeIndex, count)`. -/
def deGetRandomIndices (popSize excludeIndex count : ℕ) (r : Rng) : List ℕ × Rng :=
  let available := (List.range popSize).filter (fun i => i ≠ excludeIndex)
  let sh := shuffleFrom (available.length - 1) available r
  (sh.1.take count, sh.2)

/-- Genotype of `population[i]` (the JS read `population[i].genotype`). -/
def genoAt (pop : List Individual) (i : ℕ) : Vec :=
  (pop.getD i default).genotype

/-- Component read `v[j]`. -/
def vecAt (v : Vec) (j : ℕ) : ℚ :=
  v.getD j 0

/-- The strategy-dependent mutant vector body of
`DifferentialEvolution.mutation` (the `switch` filling `mutant[j]` for every
`j < dimension`). -/
def deMutantVec (p : ProblemDef) (s : DEState) (indices : List ℕ) : Vec :=
  let F := s.params.F
  let pop := s.population
  let bestG := (s.best.getD default).genotype
  let idx := fun k => indices.getD k 0
  (List.range p.dimension).map (fun j =>
    match s.params.strategy with
    | DEStrategy.rand1 =>
        vecAt (genoAt pop (idx 0)) j +
          F * (vecAt (genoAt pop (idx 1)) j - vecAt (genoAt pop (idx 2)) j)
    | DEStrategy.best1 =>
        vecAt bestG j +
          F * (vecAt (genoAt pop (idx 0)) j - vecAt (genoAt pop (idx 1)) j)
    | DEStrategy.rand2 =>
        vecAt (genoAt pop (idx 0)) j +
          F * (vecAt (genoAt pop (idx 1)) j - vecAt (genoAt pop (idx 2)) j) +
          F * (vecAt (genoAt pop (idx 3)) j - vecAt (genoAt pop (idx 4)) j)
    | DEStrategy.best2 =>
        vecAt bestG j +
          F * (vecAt (genoAt pop (idx 0)) j - vecAt (genoAt pop (idx 1)) j) +
          F * (vecAt (genoAt pop (idx 2)) j - vecAt (genoAt pop (idx 3)) j))

/-- `DifferentialEvolution.mutation(targetIndex)`: pick 3 or 5 random
distinct indices (5 for the `/2` strategies), build the strategy's mutant,
then repair (every problem defines `repair`). -/
def deMutation (p : ProblemDef) (s : DEState) (targetIndex : ℕ) (r : Rng) : Vec × Rng :=
  let count : ℕ :=
    match s.params.strategy with
    | DEStrategy.rand2 | DEStrategy.best2 => 5
    | _ => 3
  let gi := deGetRandomIndices s.population.length targetIndex count r
  (p.repair (deMutantVec p s gi.1), gi.2)

/-- The binomial-crossover loop of `DifferentialEvolution.crossover`: one
draw per component (the draw happens before the `|| j === jRand` test). -/
def deCrossGo (CR : ℚ) (mutant : Vec) (jRand : ℕ) : ℕ → Vec → Rng → Vec × Rng
  | _, [], r => ([], r)
  | j, t :: ts, r =>
      let d := r.next
      let x := if d.1 < CR ∨ j = jRand then mutant.getD j 0 else t
      let rest := deCrossGo CR mutant jRand (j + 1) ts d.2
      (x :: rest.1, rest.2)

/-- `DifferentialEvolution.crossover(target, mutant)`: forced index `jRand`
plus per-component replacement with probability `CR`. -/
def deCrossover (CR : ℚ) (target mutant : Vec) (r : Rng) : Vec × Rng :=
  let d := r.next
  let jRand := floorIdx d.1 target.length
  deCrossGo CR mutant jRand 0 target d.2

/-- The trial vector `step()` constructs for slot `i`: mutation then
crossover against the target's genotype. -/
def deTrial (p : ProblemDef) (s : DEState) (i : ℕ) (r : Rng) : Vec × Rng :=
  let m := deMutation p s i r
  deCrossover s.params.CR (genoAt s.population i) m.1 m.2

/-- The per-target selection loop of `DifferentialEvolution.step()`:
the trial replaces the target exactly when `trialFitness >= target.fitness`. -/
def deSelectLoop (p : ProblemDef) (s : DEState) :
    List Individual → ℕ → Rng → List Individual × Rng
  | [], _, r => ([], r)
  | target :: rest, i, r =>
      let t := deTrial p s i r
      let trialFitness := deEvaluateFitness p t.1
      let chosen : Individual :=
        if trialFitness ≥ target.fitness then ⟨t.1, trialFitness⟩ else target
      let others := deSelectLoop p s rest (i + 1) t.2
      (chosen :: others.1, others.2)

/-- `DifferentialEvolution.updateBest()`: replace the stored best only when
the current population's best is strictly better (or no best exists yet). -/
def deUpdateBest (s : DEState) : DEState :=
  let currentBest := reduceBest s.population
  match s.best with
  | none => { s with best := some currentBest }
  | some b =>
      if currentBest.fitness > b.fitness then { s with best := some currentBest } else s

/-- `DifferentialEvolution.updateStats()`: rebuild the snapshot and append
one record per history sequence (`this.best ? this.best.fitness : 0`). -/
def deUpdateStats (env : Env) (s : DEState) : DEState :=
  let avgFitness := totalFitnessOf s.population / (s.population.length : ℚ)
  let diversity := diversityOf env s.population
  let bestFit := match s.best with | some b => b.fitness | none => 0
  { s with stats :=
      { currentGeneration := s.generation
        bestFitness := bestFit
        averageFitness := avgFitness
        diversityMeasure := diversity
        history :=
          { bestFitness := s.stats.history.bestFitness ++ [bestFit]
            averageFitness := s.stats.history.averageFitness ++ [avgFitness]
            diversity := s.stats.history.diversity ++ [diversity] } } }

/-- The population-construction loop of
`DifferentialEvolution.initializePopulation()`. -/
def deInitPopLoop (p : ProblemDef) : ℕ → Rng → List Individual × Rng
  | 0, r => ([], r)
  | n + 1, r =>
      let g := p.generateRandomSolution r
      let fitness := deEvaluateFitness p g.1
      let rest := deInitPopLoop p n g.2
      ((⟨g.1, fitness⟩ : Individual) :: rest.1, rest.2)

/-- `DifferentialEvolution.initializePopulation()`. -/
def deInitializePopulation (env : Env) (p : ProblemDef) (s : DEState) : DEState :=
  let pr := deInitPopLoop p s.params.populationSize s.rng
  deUpdateStats env (deUpdateBest { s with population := pr.1, rng := pr.2 })

/-- `DifferentialEvolution.step()`: implicit initialization on an empty
population, otherwise the per-target mutate/crossover/select loop followed
by `updateBest`, `updateStats` and the generation increment. -/
def deStep (env : Env) (p : ProblemDef) (s : DEState) : DEState :=
  if s.population.length = 0 then deInitializePopulation env p s
  else
    let np := deSelectLoop p s s.population 0 s.rng
    let s2 := deUpdateStats env (deUpdateBest { s with population := np.1, rng := np.2 })
    { s2 with generation := s2.generation + 1 }

/-- `DifferentialEvolution.reset()`: clear all state, then immediately call
`initializePopulation()` (the source's reset does not leave the instance
uninitialized). -/
def deReset (env : Env) (p : ProblemDef) (s : DEState) : DEState :=
  deInitializePopulation env p
    { s with population := [], best := none, generation := 0, stats := emptyStats }

/-- `DifferentialEvolution.setParams(params)`: merge only. -/
def deSetParams (s : DEState) (patch : DEParamsPatch) : DEState :=
  { s with params := s.params.merge patch }

/-- `DifferentialEvolution.initialize(params)`: merge then `reset()`. -/
def deInitialize (env : Env) (p : ProblemDef) (s : DEState) (patch : DEParamsPatch) : DEState :=
  deReset env p { s with params := s.params.merge patch }

/-! ## Claim C2: the DE trial replaces the target exactly when its fitness
is at least the target's -/

/-- The random-stream state just before `step()` processes slot `i`:
the given targets have been processed starting at slot `i0`. -/
def deRngAfter (p : ProblemDef) (s : DEState) :
    List Individual → ℕ → Rng → Rng
  | [], _, r => r
  | _ :: rest, i, r => deRngAfter p s rest (i + 1) (deTrial p s i r).2

/-- The trial vector and its (maximized) fitness that `step()` constructs
for population slot `i`. -/
def deTrialAt (p : ProblemDef) (s : DEState) (i : ℕ) : Vec × ℚ :=
  let t := deTrial p s i (deRngAfter p s (s.population.take i) 0 s.rng)
  (t.1, deEvaluateFitness p t.1)

/-! ## Genetic Algorithm (`GeneticAlgorithm.ts`) -/

/-- The three GA selection methods (the `switch` default also runs
tournament selection, so the union covers all behavior). -/
inductive SelectionMethod
  | tournament
  | roulette
  | rank
deriving DecidableEq, Repr

/-- `GeneticAlgorithmParams` (`tournamentSize` is optional). -/
structure GAParams where
  populationSize : ℕ
  maxGenerations : ℕ
  crossoverRate : ℚ
  mutationRate : ℚ
  selectionMethod : SelectionMethod
  tournamentSize : Option ℕ
deriving DecidableEq, Repr

/-- The constructor defaults of `GeneticAlgorithm`. -/
def gaDefaultParams : GAParams :=
  { populationSize := 50, maxGenerations := 100, crossoverRate := 8/10
    mutationRate := 1/10, selectionMethod := SelectionMethod.tournament
    tournamentSize := some 3 }

/-- Partial parameter object for GA `initialize`/`setParams`. -/
structure GAParamsPatch where
  populationSize : Option ℕ := none
  maxGenerations : Option ℕ := none
  crossoverRate : Option ℚ := none
  mutationRate : Option ℚ := none
  selectionMethod : Option SelectionMethod := none
  tournamentSize : Option ℕ := none
deriving DecidableEq, Repr

/-- Object spread `{ ...this.params, ...params }` for GA parameters. -/
def GAParams.merge (pr : GAParams) (patch : GAParamsPatch) : GAParams :=
  { populationSize := patch.populationSize.getD pr.populationSize
    maxGenerations := patch.maxGenerations.getD pr.maxGenerations
    crossoverRate := patch.crossoverRate.getD pr.crossoverRate
    mutationRate := patch.mutationRate.getD pr.mutationRate
    selectionMethod := patch.selectionMethod.getD pr.selectionMethod
    tournamentSize :=
      match patch.tournamentSize with
      | some n => some n
      | none => pr.tournamentSize }

/-- The mutable instance state of a `GeneticAlgorithm` object. -/
structure GAState where
  params : GAParams
  population : List Individual
  best : Option Individual
  generation : ℕ
  stats : AlgorithmStats
  rng : Rng

/-- `GeneticAlgorithm.evaluateFitness`: negate a minimization problem's
value so the algorithm maximizes internally. -/
def gaEvaluateFitness (p : ProblemDef) (g : Vec) : ℚ :=
  let value := p.objective g
  if p.isMinimization then -value else value

/-- The tournament loop: `tournamentSize` draws, keeping the fittest
sampled individual. -/
def gaTournamentLoop (pop : List Individual) : ℕ → Option Individual → Rng →
    Option Individual × Rng
  | 0, best, r => (best, r)
  | n + 1, best, r =>
      let d := r.next
      let idx := floorIdx d.1 pop.length
      let individual := pop.getD idx default
      let best' :=
        match best with
        | none => some individual
        | some b => if individual.fitness > b.fitness then some individual else some b
      gaTournamentLoop pop n best' d.2

/-- `GeneticAlgorithm.tournamentSelection()`: `this.params.tournamentSize
|| 3` (so an absent or zero size falls back to 3), then the tournament loop
(the final `best!` assertion is modelled with a junk default). -/
def gaTournamentSelection (s : GAState) (r : Rng) : Individual × Rng :=
  let ts : ℕ :=
    match s.params.tournamentSize with
    | some n => if n = 0 then 3 else n
    | none => 3
  let res := gaTournamentLoop s.population ts none r
  (res.1.getD default, res.2)

/-- The subtraction loop of `rouletteSelection`: return the first
individual that drives the running remainder to `<= 0`. -/
def gaRouletteLoop : List (Individual × ℚ) → ℚ → Option Individual
  | [], _ => none
  | (ind, a) :: rest, rand =>
      if rand - a ≤ 0 then some ind else gaRouletteLoop rest (rand - a)

/-- `GeneticAlgorithm.rouletteSelection()`: shift all fitnesses positive
(`fitness - min + 1`), draw `rand * sum`, walk the wheel; fall through to
the last individual. -/
def gaRouletteSelection (s : GAState) (r : Rng) : Individual × Rng :=
  let fits := s.population.map (fun ind => ind.fitness)
  let minFitness := fits.foldl min (fits.headD 0)
  let adjusted := s.population.map (fun ind => ind.fitness - minFitness + 1)
  let sumFitness := adjusted.foldl (fun sum fitness => sum + fitness) 0
  let d := r.next
  let res := gaRouletteLoop (s.population.zip adjusted) (d.1 * sumFitness)
  (res.getD (s.population.getD (s.population.length - 1) default), d.2)

/-- The cumulative-weight loop of `rankSelection` with linear rank weights
`2 * (n - i) / (n * (n + 1))`. -/
def gaRankLoop (n : ℕ) (rand : ℚ) : ℕ → ℚ → List Individual → Option Individual
  | _, _, [] => none
  | i, sum, ind :: rest =>
      let sum' := sum + 2 * ((n : ℚ) - (i : ℚ)) / ((n : ℚ) * ((n : ℚ) + 1))
      if rand ≤ sum' then some ind else gaRankLoop n rand (i + 1) sum' rest

/-- `GeneticAlgorithm.rankSelection()`: sort descending by fitness, then
pick by cumulative linear rank weight; fall through to the last (worst)
individual. -/
def gaRankSelection (s : GAState) (r : Rng) : Individual × Rng :=
  let sorted := s.population.mergeSort (fun a b => b.fitness ≤ a.fitness)
  let n := sorted.length
  let d := r.next
  let res := gaRankLoop n d.1 0 0 sorted
  (res.getD (sorted.getD (n - 1) default), d.2)

/-- `GeneticAlgorithm.selection()`: dispatch on the configured method. -/
def gaSelection (s : GAState) (r : Rng) : Individual × Rng :=
  match s.params.selectionMethod with
  | SelectionMethod.tournament => gaTournamentSelection s r
  | SelectionMethod.roulette => gaRouletteSelection s r
  | SelectionMethod.rank => gaRankSelection s r

/-- The per-gene arithmetic crossover loop: one `alpha` draw per gene,
producing the complementary offspring pair. -/
def gaCrossoverAux (p2 : Vec) : ℕ → Vec → Rng → (Vec × Vec) × Rng
  | _, [], r => (([], []), r)
  | i, x :: xs, r =>
      let d := r.next
      let alpha := d.1
      let rest := gaCrossoverAux p2 (i + 1) xs d.2
      (((alpha * x + (1 - alpha) * p2.getD i 0) :: rest.1.1,
        (alpha * p2.getD i 0 + (1 - alpha) * x) :: rest.1.2), rest.2)

/-- `GeneticAlgorithm.crossover(parent1, parent2)`: arithmetic crossover
over `parent1.length` genes. -/
def gaCrossover (p1 p2 : Vec) (r : Rng) : (Vec × Vec) × Rng :=
  gaCrossoverAux p2 0 p1 r

/-- `GeneticAlgorithm.gaussianRandom(mean, stdev)` via the Box-Muller
transform (`u = 1 - random()`, `v = 1 - random()`), with the transcendental
parts taken from the abstract environment. -/
def gaGaussianRandom (env : Env) (mean stdev : ℚ) (r : Rng) : ℚ × Rng :=
  let d1 := r.next
  let d2 := d1.2.next
  let u := 1 - d1.1
  let v := 1 - d2.1
  let z := env.sqrtFn (-2 * env.logFn u) * env.cosFn (2 * env.piVal * v)
  (mean + z * stdev, d2.2)

/-- The per-gene Gaussian-mutation loop of `GeneticAlgorithm.mutation`:
each gene mutates with probability `mutationRate`, with standard deviation
10% of that dimension's bound range, then is clamped into its bound. -/
def gaMutationAux (env : Env) (p : ProblemDef) (mutationRate : ℚ) :
    ℕ → Vec → Rng → Vec × Rng
  | _, [], r => ([], r)
  | i, x :: xs, r =>
      let d := r.next
      if d.1 < mutationRate then
        let b := p.bounds.getD i (0, 0)
        let stdev := (b.2 - b.1) * (1/10)
        let g := gaGaussianRandom env 0 stdev d.2
        let x1 := max b.1 (x + g.1)
        let x2 := min b.2 x1
        let rest := gaMutationAux env p mutationRate (i + 1) xs g.2
        (x2 :: rest.1, rest.2)
      else
        let rest := gaMutationAux env p mutationRate (i + 1) xs d.2
        (x :: rest.1, rest.2)

/-- `GeneticAlgorithm.mutation(genotype)`. -/
def gaMutation (env : Env) (p : ProblemDef) (s : GAState) (g : Vec) (r : Rng) : Vec × Rng :=
  gaMutationAux env p s.params.mutationRate 0 g r

/-- One iteration body of the GA offspring loop: two selections, an
optional arithmetic crossover (one coin draw), mutation of both offspring,
and both fitness evaluations. -/
def gaProducePair (env : Env) (p : ProblemDef) (s : GAState) (r : Rng) :
    (Individual × Individual) × Rng :=
  let p1 := gaSelection s r
  let p2 := gaSelection s p1.2
  let d := p2.2.next
  let cross :=
    if d.1 < s.params.crossoverRate then gaCrossover p1.1.genotype p2.1.genotype d.2
    else ((p1.1.genotype, p2.1.genotype), d.2)
  let m1 := gaMutation env p s cross.1.1 cross.2
  let m2 := gaMutation env p s cross.1.2 m1.2
  let fitness1 := gaEvaluateFitness p m1.1
  let fitness2 := gaEvaluateFitness p m2.1
  (((⟨m1.1, fitness1⟩ : Individual), (⟨m2.1, fitness2⟩ : Individual)), m2.2)

/-- The `while (newPopulation.length < populationSize)` loop of
`GeneticAlgorithm.step()`, recursing on the number of free slots: each
iteration produces a pair and pushes the first offspring, pushing the
second only if a slot remains. -/
def gaOffspringLoop (env : Env) (p : ProblemDef) (s : GAState) :
    ℕ → Rng → List Individual × Rng
  | 0, r => ([], r)
  | n + 1, r =>
      let pair := gaProducePair env p s r
      match n with
      | 0 => ([pair.1.1], pair.2)
      | m + 1 =>
          let rest := gaOffspringLoop env p s m pair.2
          (pair.1.1 :: pair.1.2 :: rest.1, rest.2)

/-- `GeneticAlgorithm.findBest()`: linear scan for the strictly fittest
individual, seeded with `population[0]`. -/
def gaFindBest (pop : List Individual) : Individual :=
  pop.foldl (fun best ind => if ind.fitness > best.fitness then ind else best)
    (pop.headD default)

/-- `GeneticAlgorithm.updateStats()`: raises the stored best when the
current population's best is strictly better, then rebuilds the snapshot
and appends one record per history sequence. -/
def gaUpdateStats (env : Env) (s : GAState) : GAState :=
  let currentBest := gaFindBest s.population
  let best' :=
    match s.best with
    | none => currentBest
    | some b => if currentBest.fitness > b.fitness then currentBest else b
  let avgFitness := totalFitnessOf s.population / (s.population.length : ℚ)
  let diversity := diversityOf env s.population
  { s with best := some best',
           stats :=
             { currentGeneration := s.generation
               bestFitness := best'.fitness
               averageFitness := avgFitness
               diversityMeasure := diversity
               history :=
                 { bestFitness := s.stats.history.bestFitness ++ [best'.fitness]
                   averageFitness := s.stats.history.averageFitness ++ [avgFitness]
                   diversity := s.stats.history.diversity ++ [diversity] } } }

/-- The population-construction loop of
`GeneticAlgorithm.initializePopulation()`. -/
def gaInitPopLoop (p : ProblemDef) : ℕ → Rng → List Individual × Rng
  | 0, r => ([], r)
  | n + 1, r =>
      let g := p.generateRandomSolution r
      let fitness := gaEvaluateFitness p g.1
      let rest := gaInitPopLoop p n g.2
      ((⟨g.1, fitness⟩ : Individual) :: rest.1, rest.2)

/-- `GeneticAlgorithm.initializePopulation()`. -/
def gaInitializePopulation (env : Env) (p : ProblemDef) (s : GAState) : GAState :=
  let pr := gaInitPopLoop p s.params.populationSize s.rng
  gaUpdateStats env { s with population := pr.1, rng := pr.2 }

/-- `GeneticAlgorithm.step()`: implicit initialization on an empty
population; otherwise push the stored best unconditionally (elitism), fill
the remaining slots with offspring, increment the generation, and update
the stats. -/
def gaStep (env : Env) (p : ProblemDef) (s : GAState) : GAState :=
  if s.population.length = 0 then gaInitializePopulation env p s
  else
    let elite : List Individual :=
      match s.best with
      | some b => [b]
      | none => []
    let need := s.params.populationSize - elite.length
    let off := gaOffspringLoop env p s need s.rng
    gaUpdateStats env
      { s with population := elite ++ off.1, rng := off.2, generation := s.generation + 1 }

/-- `GeneticAlgorithm.reset()`: clear everything; unlike DE/ES/PSO it does
not re-initialize the population. -/
def gaReset (s : GAState) : GAState :=
  { s with population := [], best := none, generation := 0, stats := emptyStats }

/-- `GeneticAlgorithm.setParams(params)`: merge only. -/
def gaSetParams (s : GAState) (patch : GAParamsPatch) : GAState :=
  { s with params := s.params.merge patch }

/-- `GeneticAlgorithm.initialize(params)`: merge then `reset()`. -/
def gaInitialize (s : GAState) (patch : GAParamsPatch) : GAState :=
  gaReset { s with params := s.params.merge patch }

/-! ## Evolution Strategy (`EvolutionStrategy.ts`) -/

/-- ES selection type: `(μ+λ)` or `(μ,λ)`. -/
inductive ESSelection
  | plus
  | comma
deriving DecidableEq, Repr

/-- `EvolutionStrategyParams`. -/
structure ESParams where
  populationSize : ℕ
  maxGenerations : ℕ
  mu : ℕ
  lambda : ℕ
  selectionType : ESSelection
  initialStepSize : ℚ
deriving DecidableEq, Repr

/-- The constructor defaults of `EvolutionStrategy`. -/
def esDefaultParams : ESParams :=
  { populationSize := 50, maxGenerations := 100, mu := 10, lambda := 40
    selectionType := ESSelection.plus, initialStepSize := 1/10 }

/-- Partial parameter object for ES `initialize`/`setParams`. -/
structure ESParamsPatch where
  populationSize : Option ℕ := none
  maxGenerations : Option ℕ := none
  mu : Option ℕ := none
  lambda : Option ℕ := none
  selectionType : Option ESSelection := none
  initialStepSize : Option ℚ := none
deriving DecidableEq, Repr

/-- Object spread `{ ...this.params, ...params }` for ES parameters. -/
def ESParams.merge (pr : ESParams) (patch : ESParamsPatch) : ESParams :=
  { populationSize := patch.populationSize.getD pr.populationSize
    maxGenerations := patch.maxGenerations.getD pr.maxGenerations
    mu := patch.mu.getD pr.mu
    lambda := patch.lambda.getD pr.lambda
    selectionType := patch.selectionType.getD pr.selectionType
    initialStepSize := patch.initialStepSize.getD pr.initialStepSize }

/-- The mutable instance state of an `EvolutionStrategy` object. -/
structure ESState where
  params : ESParams
  population : List Individual
  best : Option Individual
  generation : ℕ
  stats : AlgorithmStats
  stepSizes : List ℚ
  rng : Rng

/-- `EvolutionStrategy.evaluateFitness`: negate a minimization problem's
value so the algorithm maximizes internally. -/
def esEvaluateFitness (p : ProblemDef) (g : Vec) : ℚ :=
  let fitness := p.objective g
  if p.isMinimization then -fitness else fitness

/-- The `while (u === 0) u = Math.random()` redraw loop of `randomNormal`,
with fuel. -/
def rngNextNonZero : ℕ → Rng → Option (ℚ × Rng)
  | 0, _ => none
  | fuel + 1, r =>
      let d := r.next
      if d.1 = 0 then rngNextNonZero fuel d.2 else some d

/-- `EvolutionStrategy.randomNormal(mean, stdDev)` (Box-Muller, two
nonzero draws, transcendental parts from the abstract environment). -/
def esRandomNormal (env : Env) (mean stdDev : ℚ) (fuel : ℕ) (r : Rng) : Option (ℚ × Rng) :=
  match rngNextNonZero fuel r with
  | none => none
  | some ur =>
      match rngNextNonZero fuel ur.2 with
      | none => none
      | some vr =>
          let z := env.sqrtFn (-2 * env.logFn ur.1) * env.cosFn (2 * env.piVal * vr.1)
          some (mean + z * stdDev, vr.2)

/-- The per-dimension loop of `EvolutionStrategy.mutation`: update the
instance-wide step size for dimension `i` (floored at `1e-10`), then
perturb the gene by `stepSize * randomNormal(0, 1)`. -/
def esMutateLoop (env : Env) (factor : ℚ) (fuel : ℕ) :
    ℕ → Vec → List ℚ → Rng → Option (Vec × (List ℚ × Rng))
  | _, [], ss, r => some ([], (ss, r))
  | i, x :: xs, ss, r =>
      let s1 := ss.getD i 0 * factor
      let s2 := if s1 < 1/10000000000 then 1/10000000000 else s1
      let ss1 := ss.set i s2
      match esRandomNormal env 0 1 fuel r with
      | none => none
      | some nr =>
          match esMutateLoop env factor fuel (i + 1) xs ss1 nr.2 with
          | none => none
          | some rest => some ((x + s2 * nr.1) :: rest.1, rest.2)

/-- `EvolutionStrategy.mutation(genotype)`: one global learning factor
`exp(tau * N(0,1))` with `tau = 1/sqrt(dimension)`, the per-dimension loop,
then repair. -/
def esMutation (env : Env) (p : ProblemDef) (fuel : ℕ) (genotype : Vec)
    (stepSizes : List ℚ) (r : Rng) : Option (Vec × (List ℚ × Rng)) :=
  let tau := 1 / env.sqrtFn ((p.dimension : ℚ))
  match esRandomNormal env 0 1 fuel r with
  | none => none
  | some nr =>
      let factor := env.expFn (tau * nr.1)
      match esMutateLoop env factor fuel 0 genotype stepSizes nr.2 with
      | none => none
      | some res => some (p.repair res.1, res.2)

/-- The λ-offspring loop of `EvolutionStrategy.step()`: each iteration
draws a random parent index below `mu`, mutates the parent, and evaluates
the offspring. -/
def esOffspringLoop (env : Env) (p : ProblemDef) (mu : ℕ) (pop : List Individual)
    (fuel : ℕ) : ℕ → List ℚ → Rng → Option (List Individual × (List ℚ × Rng))
  | 0, ss, r => some ([], (ss, r))
  | n + 1, ss, r =>
      let d := r.next
      let parentIndex := floorIdx d.1 mu
      let parent := pop.getD parentIndex default
      match esMutation env p fuel parent.genotype ss d.2 with
      | none => none
      | some mg =>
          let fitness := esEvaluateFitness p mg.1
          match esOffspringLoop env p mu pop fuel n mg.2.1 mg.2.2 with
          | none => none
          | some rest => some ((⟨mg.1, fitness⟩ : Individual) :: rest.1, rest.2)

/-- `EvolutionStrategy.updateBest()` (identical to DE's `updateBest`). -/
def esUpdateBest (s : ESState) : ESState :=
  let currentBest := reduceBest s.population
  match s.best with
  | none => { s with best := some currentBest }
  | some b =>
      if currentBest.fitness > b.fitness then { s with best := some currentBest } else s

/-- `EvolutionStrategy.updateStats()` (appends `this.best ? this.best.fitness
: 0`; note that `initializePopulation` calls this while `best` is still
`null`, recording a literal `0`). -/
def esUpdateStats (env : Env) (s : ESState) : ESState :=
  let avgFitness := totalFitnessOf s.population / (s.population.length : ℚ)
  let diversity := diversityOf env s.population
  let bestFit := match s.best with | some b => b.fitness | none => 0
  { s with stats :=
      { currentGeneration := s.generation
        bestFitness := bestFit
        averageFitness := avgFitness
        diversityMeasure := diversity
        history :=
          { bestFitness := s.stats.history.bestFitness ++ [bestFit]
            averageFitness := s.stats.history.averageFitness ++ [avgFitness]
            diversity := s.stats.history.diversity ++ [diversity] } } }

/-- The population-construction loop of
`EvolutionStrategy.initializePopulation()` (creates `mu` parents). -/
def esInitPopLoop (p : ProblemDef) : ℕ → Rng → List Individual × Rng
  | 0, r => ([], r)
  | n + 1, r =>
      let g := p.generateRandomSolution r
      let fitness := esEvaluateFitness p g.1
      let rest := esInitPopLoop p n g.2
      ((⟨g.1, fitness⟩ : Individual) :: rest.1, rest.2)

/-- `EvolutionStrategy.initializePopulation()`: reset the per-dimension
step sizes, create `mu` random parents, then `updateStats()` (without
`updateBest`, so the stored best stays `null` here). -/
def esInitializePopulation (env : Env) (p : ProblemDef) (s : ESState) : ESState :=
  let ss := List.replicate p.dimension s.params.initialStepSize
  let pr := esInitPopLoop p s.params.mu s.rng
  esUpdateStats env { s with stepSizes := ss, population := pr.1, rng := pr.2 }

/-- The descending-fitness comparison of the JS sort comparator
`(a, b) => b.fitness - a.fitness`. -/
def fitnessDesc (a b : Individual) : Bool :=
  b.fitness ≤ a.fitness

/-- `EvolutionStrategy.step()`: implicit initialization on an empty
population; otherwise λ offspring, then `(μ+λ)` or `(μ,λ)` truncation
selection, `updateBest`, `updateStats`, generation increment.  `none` when
the `randomNormal` redraw loops exceed the fuel. -/
def esStep (env : Env) (p : ProblemDef) (fuel : ℕ) (s : ESState) : Option ESState :=
  if s.population.length = 0 then some (esInitializePopulation env p s)
  else
    match esOffspringLoop env p s.params.mu s.population fuel s.params.lambda
        s.stepSizes s.rng with
    | none => none
    | some off =>
        let newPop :=
          match s.params.selectionType with
          | ESSelection.plus =>
              ((s.population ++ off.1).mergeSort fitnessDesc).take s.params.mu
          | ESSelection.comma =>
              (off.1.mergeSort fitnessDesc).take s.params.mu
        let s2 := esUpdateStats env
          (esUpdateBest { s with population := newPop, stepSizes := off.2.1, rng := off.2.2 })
        some { s2 with generation := s2.generation + 1 }

/-- `EvolutionStrategy.reset()`: clear all state, then immediately call
`initializePopulation()` (like DE, reset does not leave the instance
uninitialized). -/
def esReset (env : Env) (p : ProblemDef) (s : ESState) : ESState :=
  esInitializePopulation env p
    { s with population := [], best := none, generation := 0, stats := emptyStats }

/-- `EvolutionStrategy.setParams(params)`: merge only (no `mu` sync here). -/
def esSetParams (s : ESState) (patch : ESParamsPatch) : ESState :=
  { s with params := s.params.merge patch }

/-- JavaScript truthiness of an optional numeric parameter field. -/
def jsTruthyNat : Option ℕ → Bool
  | some n => n ≠ 0
  | none => false

/-- The `mu` synchronization at the top of `EvolutionStrategy.initialize`:
`if (params.populationSize && (!params.mu || params.mu !==
params.populationSize)) params = { ...params, mu: params.populationSize }`. -/
def esSyncPatch (patch : ESParamsPatch) : ESParamsPatch :=
  if jsTruthyNat patch.populationSize ∧
      (¬ jsTruthyNat patch.mu ∨ patch.mu ≠ patch.populationSize)
  then { patch with mu := patch.populationSize }
  else patch

/-- `EvolutionStrategy.initialize(params)`: `mu` sync, merge, `reset()`. -/
def esInitialize (env : Env) (p : ProblemDef) (s : ESState) (patch : ESParamsPatch) : ESState :=
  esReset env p { s with params := s.params.merge (esSyncPatch patch) }

/-! ## Artificial Bee Colony (`ArtificialBeeColony.ts`) -/

/-- `ArtificialBeeColonyParams`. -/
structure ABCParams where
  populationSize : ℕ
  maxGenerations : ℕ
  limit : ℕ
  scalingFactor : ℚ
deriving DecidableEq, Repr

/-- The constructor defaults of `ArtificialBeeColony`. -/
def abcDefaultParams : ABCParams :=
  { populationSize := 40, maxGenerations := 100, limit := 20, scalingFactor := 1/2 }

/-- Partial parameter object for ABC `initialize`/`setParams`. -/
structure ABCParamsPatch where
  populationSize : Option ℕ := none
  maxGenerations : Option ℕ := none
  limit : Option ℕ := none
  scalingFactor : Option ℚ := none
deriving DecidableEq, Repr

/-- Object spread `{ ...this.params, ...params }` for ABC parameters. -/
def ABCParams.merge (pr : ABCParams) (patch : ABCParamsPatch) : ABCParams :=
  { populationSize := patch.populationSize.getD pr.populationSize
    maxGenerations := patch.maxGenerations.getD pr.maxGenerations
    limit := patch.limit.getD pr.limit
    scalingFactor := patch.scalingFactor.getD pr.scalingFactor }

/-- The mutable instance state of an `ArtificialBeeColony` object (with the
per-food-source trial counters). -/
structure ABCState where
  params : ABCParams
  population : List Individual
  trials : List ℕ
  best : Option Individual
  generation : ℕ
  stats : AlgorithmStats
  rng : Rng

/-- `ArtificialBeeColony.isBetter(fitnessA, fitnessB)`: direction-aware
comparison (ABC does not negate fitnesses). -/
def abcIsBetter (p : ProblemDef) (fitnessA fitnessB : ℚ) : Bool :=
  if p.isMinimization then fitnessA < fitnessB else fitnessA > fitnessB

/-- `ArtificialBeeColony.evaluateFitness(solution)`: the raw problem value. -/
def abcEvaluateFitness (p : ProblemDef) (v : Vec) : ℚ :=
  p.objective v

/-- The `do { partnerIndex = ... } while (partnerIndex === index)` retry
loop of `generateNeighborSolution`, with fuel (it loops forever when the
population has a single food source, and can loop arbitrarily long on
adversarial draws). -/
def abcPartnerIndex (popLen index : ℕ) : ℕ → Rng → Option (ℕ × Rng)
  | 0, _ => none
  | fuel + 1, r =>
      let d := r.next
      let partnerIndex := floorIdx d.1 popLen
      if partnerIndex = index then abcPartnerIndex popLen index fuel d.2
      else some (partnerIndex, d.2)

/-- `ArtificialBeeColony.generateNeighborSolution(index)`: modify one
random dimension by `phi * (x - partner)` with `phi ~ U(-scalingFactor,
scalingFactor)`, then repair. -/
def abcGenerateNeighbor (p : ProblemDef) (sf : ℚ) (pop : List Individual) (index : ℕ)
    (nFuel : ℕ) (r : Rng) : Option (Vec × Rng) :=
  let solution := genoAt pop index
  let d := r.next
  let dimension := floorIdx d.1 solution.length
  match abcPartnerIndex pop.length index nFuel d.2 with
  | none => none
  | some pr =>
      let partner := genoAt pop pr.1
      let d2 := pr.2.next
      let phi := (d2.1 * 2 - 1) * sf
      let newSolution := solution.set dimension
        (vecAt solution dimension + phi * (vecAt solution dimension - vecAt partner dimension))
      some (p.repair newSolution, d2.2)

/-- The employed-bee loop: one neighbor per food source with greedy
replacement, else increment the trial counter.  Iterates `remaining` times
starting at index `i` over the (in-place updated) population. -/
def abcEmployedGo (p : ProblemDef) (sf : ℚ) (nFuel : ℕ) :
    ℕ → ℕ → List Individual → List ℕ → Rng → Option (List Individual × (List ℕ × Rng))
  | 0, _, pop, trials, r => some (pop, (trials, r))
  | k + 1, i, pop, trials, r =>
      match abcGenerateNeighbor p sf pop i nFuel r with
      | none => none
      | some ns =>
          let newFitness := abcEvaluateFitness p ns.1
          if abcIsBetter p newFitness ((pop.getD i default).fitness) then
            abcEmployedGo p sf nFuel k (i + 1)
              (pop.set i ⟨ns.1, newFitness⟩) (trials.set i 0) ns.2
          else
            abcEmployedGo p sf nFuel k (i + 1) pop
              (trials.set i ((trials.getD i 0) + 1)) ns.2

/-- `ArtificialBeeColony.employedBeePhase()`. -/
def abcEmployedPhase (p : ProblemDef) (sf : ℚ) (nFuel : ℕ) (pop : List Individual)
    (trials : List ℕ) (r : Rng) : Option (List Individual × (List ℕ × Rng)) :=
  abcEmployedGo p sf nFuel pop.length 0 pop trials r

/-- `ArtificialBeeColony.normalizeFitness(fitness)`: for minimization,
`1 / (1 + fitness - Math.min(0, maxFitness))` with `maxFitness` the current
population's maximum raw fitness; for maximization, `Math.max(0, fitness)`. -/
def abcNormalizeFitness (p : ProblemDef) (pop : List Individual) (fitness : ℚ) : ℚ :=
  if p.isMinimization then
    let fits := pop.map (fun ind => ind.fitness)
    let maxFitness := fits.foldl max (fits.headD 0)
    1 / (1 + fitness - min 0 maxFitness)
  else
    max 0 fitness

/-- `ArtificialBeeColony.calculateTotalFitness()`. -/
def abcTotalFitness (p : ProblemDef) (pop : List Individual) : ℚ :=
  pop.foldl (fun sum individual => sum + abcNormalizeFitness p pop individual.fitness) 0

/-- `ArtificialBeeColony.calculateProbability(fitness, totalFitness)`.
(When `totalFitness` is `0` the JS quotient is `NaN` and every `rand <
NaN` test is false; the rational model yields `0`, and `rand < 0` is
equally false for the nonnegative draws `Math.random` produces.) -/
def abcProbability (p : ProblemDef) (pop : List Individual) (fitness total : ℚ) : ℚ :=
  abcNormalizeFitness p pop fitness / total

/-- The onlooker-bee `while (count < population.length)` loop, with fuel:
each pass draws once against the current food source's selection
probability; a hit performs one neighbor search (greedy replacement /
trial increment) and increments `count`; `i` cycles modulo the population
size.  Returns the updated population/trials and the final `count`. -/
def abcOnlookerGo (p : ProblemDef) (sf : ℚ) (total : ℚ) (nFuel : ℕ) :
    ℕ → ℕ → ℕ → List Individual → List ℕ → Rng →
      Option ((List Individual × List ℕ) × (ℕ × Rng))
  | 0, _, _, _, _, _ => none
  | fuel + 1, count, i, pop, trials, r =>
      if count < pop.length then
        let probability := abcProbability p pop ((pop.getD i default).fitness) total
        let d := r.next
        if d.1 < probability then
          match abcGenerateNeighbor p sf pop i nFuel d.2 with
          | none => none
          | some ns =>
              let newFitness := abcEvaluateFitness p ns.1
              if abcIsBetter p newFitness ((pop.getD i default).fitness) then
                abcOnlookerGo p sf total nFuel fuel (count + 1) ((i + 1) % pop.length)
                  (pop.set i ⟨ns.1, newFitness⟩) (trials.set i 0) ns.2
              else
                abcOnlookerGo p sf total nFuel fuel (count + 1) ((i + 1) % pop.length)
                  pop (trials.set i ((trials.getD i 0) + 1)) ns.2
        else
          abcOnlookerGo p sf total nFuel fuel count ((i + 1) % pop.length) pop trials d.2
      else
        some ((pop, trials), (count, r))

/-- `ArtificialBeeColony.onlookerBeePhase()`: total fitness computed once,
then the loop from `count = 0`, `i = 0`. -/
def abcOnlookerPhase (p : ProblemDef) (sf : ℚ) (loopFuel nFuel : ℕ) (pop : List Individual)
    (trials : List ℕ) (r : Rng) : Option ((List Individual × List ℕ) × (ℕ × Rng)) :=
  abcOnlookerGo p sf (abcTotalFitness p pop) nFuel loopFuel 0 0 pop trials r

/-- The scout-bee loop: replace any food source whose trial counter
strictly exceeds `limit` with a fresh random solution. -/
def abcScoutGo (p : ProblemDef) (limit : ℕ) :
    ℕ → ℕ → List Individual → List ℕ → Rng → List Individual × (List ℕ × Rng)
  | 0, _, pop, trials, r => (pop, (trials, r))
  | k + 1, i, pop, trials, r =>
      if trials.getD i 0 > limit then
        let g := p.generateRandomSolution r
        let fitness := abcEvaluateFitness p g.1
        abcScoutGo p limit k (i + 1) (pop.set i ⟨g.1, fitness⟩) (trials.set i 0) g.2
      else
        abcScoutGo p limit k (i + 1) pop trials r

/-- `ArtificialBeeColony.scoutBeePhase()`. -/
def abcScoutPhase (p : ProblemDef) (limit : ℕ) (pop : List Individual) (trials : List ℕ)
    (r : Rng) : List Individual × (List ℕ × Rng) :=
  abcScoutGo p limit pop.length 0 pop trials r

/-- The index scan of `ArtificialBeeColony.findBest()` (starts at
`bestIndex = 0`, scans from `i = 1`, strict direction-aware comparison). -/
def abcFindBestGo (p : ProblemDef) (pop : List Individual) : ℕ → ℕ → ℕ → ℕ
  | 0, _, bestIndex => bestIndex
  | k + 1, i, bestIndex =>
      if abcIsBetter p ((pop.getD i default).fitness) ((pop.getD bestIndex default).fitness)
      then abcFindBestGo p pop k (i + 1) i
      else abcFindBestGo p pop k (i + 1) bestIndex

/-- `ArtificialBeeColony.findBest()`: the best individual of the CURRENT
population (a copy of it is unconditionally assigned to `this.best` by the
caller — the stored best is not compared against). -/
def abcFindBest (p : ProblemDef) (pop : List Individual) : Individual :=
  pop.getD (abcFindBestGo p pop (pop.length - 1) 1 0) default

/-- `ArtificialBeeColony.calculateDiversity()`. -/
def abcCalculateDiversity (env : Env) (pop : List Individual) : ℚ :=
  if pop.length ≤ 1 then 0
  else pairwiseSum env pop / ((pop.length * (pop.length - 1) / 2 : ℕ) : ℚ)

/-- `ArtificialBeeColony.updateStats()`: no-op on an empty population;
`bestFitness` is the stored best's fitness, or `findBest()` is run (and
assigned to `this.best`) when none is stored. -/
def abcUpdateStats (env : Env) (p : ProblemDef) (s : ABCState) : ABCState :=
  if s.population.length = 0 then s
  else
    let pair : ℚ × Option Individual :=
      match s.best with
      | some b => (b.fitness, some b)
      | none =>
          let fb := abcFindBest p s.population
          (fb.fitness, some fb)
    let avgFitness := totalFitnessOf s.population / (s.population.length : ℚ)
    let diversity := abcCalculateDiversity env s.population
    { s with best := pair.2,
             stats :=
               { currentGeneration := s.generation
                 bestFitness := pair.1
                 averageFitness := avgFitness
                 diversityMeasure := diversity
                 history :=
                   { bestFitness := s.stats.history.bestFitness ++ [pair.1]
                     averageFitness := s.stats.history.averageFitness ++ [avgFitness]
                     diversity := s.stats.history.diversity ++ [diversity] } } }

/-- The population/trials construction loop of
`ArtificialBeeColony.initializePopulation()`. -/
def abcInitPopLoop (p : ProblemDef) : ℕ → Rng → (List Individual × List ℕ) × Rng
  | 0, r => (([], []), r)
  | n + 1, r =>
      let g := p.generateRandomSolution r
      let fitness := abcEvaluateFitness p g.1
      let rest := abcInitPopLoop p n g.2
      (((⟨g.1, fitness⟩ : Individual) :: rest.1.1, 0 :: rest.1.2), rest.2)

/-- `ArtificialBeeColony.initializePopulation()`. -/
def abcInitializePopulation (env : Env) (p : ProblemDef) (s : ABCState) : ABCState :=
  let pr := abcInitPopLoop p s.params.populationSize s.rng
  abcUpdateStats env p { s with population := pr.1.1, trials := pr.1.2, rng := pr.2 }

/-- `ArtificialBeeColony.step()`: implicit initialization on an empty
population; otherwise employed, onlooker and scout phases, then
`findBest()` (assigned unconditionally to `this.best`), generation
increment, and `updateStats()`. -/
def abcStep (env : Env) (p : ProblemDef) (loopFuel nFuel : ℕ) (s : ABCState) :
    Option ABCState :=
  if s.population.length = 0 then some (abcInitializePopulation env p s)
  else
    match abcEmployedPhase p s.params.scalingFactor nFuel s.population s.trials s.rng with
    | none => none
    | some emp =>
        match abcOnlookerPhase p s.params.scalingFactor loopFuel nFuel emp.1 emp.2.1 emp.2.2 with
        | none => none
        | some onl =>
            let sc := abcScoutPhase p s.params.limit onl.1.1 onl.1.2 onl.2.2
            let newBest := abcFindBest p sc.1
            some (abcUpdateStats env p
              { s with population := sc.1, trials := sc.2.1, rng := sc.2.2,
                       best := some newBest, generation := s.generation + 1 })

/-- `ArtificialBeeColony.reset()`: clear everything; like GA/SA it does not
re-initialize the population. -/
def abcReset (s : ABCState) : ABCState :=
  { s with population := [], trials := [], best := none, generation := 0, stats := emptyStats }

/-- `ArtificialBeeColony.setParams(params)`: merge only. -/
def abcSetParams (s : ABCState) (patch : ABCParamsPatch) : ABCState :=
  { s with params := s.params.merge patch }

/-- `ArtificialBeeColony.initialize(params)`: merge then `reset()`. -/
def abcInitialize (s : ABCState) (patch : ABCParamsPatch) : ABCState :=
  abcReset { s with params := s.params.merge patch }

/-- A concrete two-food-source population over the 1-dimensional sphere
problem (genotypes `[0]` and `[2.56]`, raw fitnesses `0` and `6.5536`). -/
def abcSpherePop : List Individual :=
  [⟨[0], 0⟩, ⟨[64/25], 4096/625⟩]

/-! ## Claim C1, ABC part: the recorded best fitness can regress -/

/-- The RNG draws of the concrete regression run: population
initialization (2 draws), employed-bee phase (6), onlooker-bee phase (11),
scout-bee phase (2). -/
def abcCexDraws : List ℚ :=
  [1/2, 3/4, 1/2, 3/4, 1/2, 1/2, 1/4, 1/2, 9/10, 9/10, 1/2, 1/2, 3/4, 1/2, 9/10, 1/2, 1/2,
   3/4, 1/2, 9/10, 4/5]

/-- The ABC instance after `initializePopulation()` on the 1-dimensional
sphere problem with `populationSize = 2`, `limit = 0`, and the draw stream
`abcCexDraws`: food sources `[0]` (fitness 0, the recorded best) and
`[2.56]` (fitness 6.5536). -/
def abcCexState : ABCState :=
  abcInitializePopulation zeroEnv (sphereProblem 1)
    ⟨{ abcDefaultParams with populationSize := 2, limit := 0 }, [], [], none, 0, emptyStats,
      listRng abcCexDraws (9/10)⟩

/-! ## Particle Swarm Optimization (`ParticleSwarmOptimization.ts`) -/

/-- PSO neighborhood topologies. -/
inductive PSOTopology
  | global
  | ring
  | vonNeumann
deriving DecidableEq, Repr

/-- `ParticleSwarmParams` (`neighborhoodSize` is optional). -/
structure PSOParams where
  populationSize : ℕ
  maxGenerations : ℕ
  inertiaWeight : ℚ
  cognitiveCoefficient : ℚ
  socialCoefficient : ℚ
  maxVelocity : ℚ
  topology : PSOTopology
  neighborhoodSize : Option ℕ
deriving DecidableEq, Repr

/-- The constructor defaults of `ParticleSwarmOptimization`. -/
def psoDefaultParams : PSOParams :=
  { populationSize := 50, maxGenerations := 100, inertiaWeight := 7/10
    cognitiveCoefficient := 3/2, socialCoefficient := 3/2, maxVelocity := 1/10
    topology := PSOTopology.global, neighborhoodSize := some 3 }

/-- Partial parameter object for PSO `initialize`/`setParams`. -/
structure PSOParamsPatch where
  populationSize : Option ℕ := none
  maxGenerations : Option ℕ := none
  inertiaWeight : Option ℚ := none
  cognitiveCoefficient : Option ℚ := none
  socialCoefficient : Option ℚ := none
  maxVelocity : Option ℚ := none
  topology : Option PSOTopology := none
  neighborhoodSize : Option ℕ := none
deriving DecidableEq, Repr

/-- Object spread `{ ...this.params, ...params }` for PSO parameters. -/
def PSOParams.merge (pr : PSOParams) (patch : PSOParamsPatch) : PSOParams :=
  { populationSize := patch.populationSize.getD pr.populationSize
    maxGenerations := patch.maxGenerations.getD pr.maxGenerations
    inertiaWeight := patch.inertiaWeight.getD pr.inertiaWeight
    cognitiveCoefficient := patch.cognitiveCoefficient.getD pr.cognitiveCoefficient
    socialCoefficient := patch.socialCoefficient.getD pr.socialCoefficient
    maxVelocity := patch.maxVelocity.getD pr.maxVelocity
    topology := patch.topology.getD pr.topology
    neighborhoodSize :=
      match patch.neighborhoodSize with
      | some n => some n
      | none => pr.neighborhoodSize }

/-- A PSO `Particle`: an individual extended with velocity, personal best
and the neighbor index list (ring neighbors can be negative in JS when the
neighborhood radius exceeds the swarm size, hence `ℤ`). -/
structure Particle where
  genotype : Vec
  fitness : ℚ
  velocity : Vec
  personalBestPosition : Vec
  personalBestFitness : ℚ
  neighbors : List ℤ
deriving DecidableEq, Repr

instance : Inhabited Particle := ⟨⟨[], 0, [], [], 0, []⟩⟩

/-- Read `this.particles[idx]` for a possibly negative JS index. -/
def particleAtZ (particles : List Particle) (idx : ℤ) : Particle :=
  if 0 ≤ idx then particles.getD idx.toNat default else default

/-- The mutable instance state of a `ParticleSwarmOptimization` object. -/
structure PSOState where
  params : PSOParams
  particles : List Particle
  globalBest : Option Individual
  iteration : ℕ
  stats : AlgorithmStats
  rng : Rng

/-- `ParticleSwarmOptimization.evaluateFitness`: negate a minimization
problem's value so the algorithm maximizes internally. -/
def psoEvaluateFitness (p : ProblemDef) (g : Vec) : ℚ :=
  let fitness := p.objective g
  if p.isMinimization then -fitness else fitness

/-- `ParticleSwarmOptimization.getVelocityRange()`: average bound range
times the `maxVelocity` fraction. -/
def psoVelocityRange (p : ProblemDef) (maxVelocity : ℚ) : ℚ :=
  let avgRange := (p.bounds.foldl (fun sum b => sum + (b.2 - b.1)) 0) / (p.dimension : ℚ)
  avgRange * maxVelocity

/-- The per-component random initial velocity
(`(Math.random() * 2 - 1) * range`). -/
def psoVelocityInit (range : ℚ) : ℕ → Rng → Vec × Rng
  | 0, r => ([], r)
  | n + 1, r =>
      let d := r.next
      let rest := psoVelocityInit range n d.2
      (((d.1 * 2 - 1) * range) :: rest.1, rest.2)

/-- The particle-construction loop of
`ParticleSwarmOptimization.initializePopulation()` (neighbors are assigned
afterwards by `setupTopology`). -/
def psoInitPopLoop (p : ProblemDef) (maxVel : ℚ) : ℕ → Rng → List Particle × Rng
  | 0, r => ([], r)
  | n + 1, r =>
      let g := p.generateRandomSolution r
      let fitness := psoEvaluateFitness p g.1
      let vel := psoVelocityInit (psoVelocityRange p maxVel) g.1.length g.2
      let rest := psoInitPopLoop p maxVel n vel.2
      ((⟨g.1, fitness, vel.1, g.1, fitness, []⟩ : Particle) :: rest.1, rest.2)

/-- Integer ceiling square root (`Math.ceil(Math.sqrt(n))` for the grid
size of the von Neumann topology). -/
def ceilSqrt (n : ℕ) : ℕ :=
  if Nat.sqrt n * Nat.sqrt n = n then Nat.sqrt n else Nat.sqrt n + 1

/-- The neighbor set `setupTopology` assigns to particle `i` of
`numParticles`. -/
def psoNeighborsFor (params : PSOParams) (numParticles i : ℕ) : List ℤ :=
  match params.topology with
  | PSOTopology.global =>
      ((List.range numParticles).filter (fun j => j ≠ i)).map (fun j => (j : ℤ))
  | PSOTopology.ring =>
      let k : ℕ :=
        match params.neighborhoodSize with
        | some n => if n = 0 then 1 else n
        | none => 1
      (List.range k).flatMap (fun j0 =>
        let j : ℤ := (j0 : ℤ) + 1
        [((i : ℤ) - j + (numParticles : ℤ)).tmod (numParticles : ℤ),
          ((i : ℤ) + j).tmod (numParticles : ℤ)])
  | PSOTopology.vonNeumann =>
      let gridSize := ceilSqrt numParticles
      let row := i / gridSize
      let col := i % gridSize
      let northIdx := ((row + gridSize - 1) % gridSize) * gridSize + col
      let southIdx := ((row + 1) % gridSize) * gridSize + col
      let westIdx := row * gridSize + ((col + gridSize - 1) % gridSize)
      let eastIdx := row * gridSize + ((col + 1) % gridSize)
      ((if northIdx < numParticles then [(northIdx : ℤ)] else []) ++
        (if southIdx < numParticles then [(southIdx : ℤ)] else []) ++
        (if westIdx < numParticles then [(westIdx : ℤ)] else []) ++
        (if eastIdx < numParticles then [(eastIdx : ℤ)] else []))

/-- `ParticleSwarmOptimization.setupTopology()`. -/
def psoSetupTopology (params : PSOParams) (particles : List Particle) : List Particle :=
  particles.mapIdx (fun i particle =>
    { particle with neighbors := psoNeighborsFor params particles.length i })

/-- `ParticleSwarmOptimization.findBestNeighbor(particle)`: for the global
topology, the first particle whose personal-best fitness EQUALS the global
best's fitness (falling back to the particle itself); otherwise the best
personal best among the particle's neighbors, seeded with the particle. -/
def psoFindBestNeighbor (params : PSOParams) (particles : List Particle)
    (globalBest : Option Individual) (particle : Particle) : Particle :=
  match params.topology with
  | PSOTopology.global =>
      (particles.find? (fun q =>
        q.personalBestFitness == (globalBest.getD default).fitness)).getD particle
  | _ =>
      particle.neighbors.foldl (fun best neighborIdx =>
        let neighbor := particleAtZ particles neighborIdx
        if neighbor.personalBestFitness > best.personalBestFitness then neighbor else best)
        particle

/-- The per-dimension velocity/position update loop of
`ParticleSwarmOptimization.updateParticle`: two draws per dimension,
velocity update, clamp to `±maxVelocity`, position shift. -/
def psoUpdateParticleGo (w c1 c2 maxVel : ℚ) (pbest nbest : Vec) :
    ℕ → ℕ → Vec → Vec → Rng → (Vec × Vec) × Rng
  | 0, _, vel, pos, r => ((vel, pos), r)
  | k + 1, d, vel, pos, r =>
      let d1 := r.next
      let d2 := d1.2.next
      let v1 := w * vel.getD d 0 + c1 * d1.1 * (pbest.getD d 0 - pos.getD d 0) +
        c2 * d2.1 * (nbest.getD d 0 - pos.getD d 0)
      let v2 := max (-maxVel) (min maxVel v1)
      psoUpdateParticleGo w c1 c2 maxVel pbest nbest k (d + 1) (vel.set d v2)
        (pos.set d (pos.getD d 0 + v2)) d2.2

/-- `ParticleSwarmOptimization.updateParticle(particle, bestNeighbor)`:
dimension loop then repair of the position. -/
def psoUpdateParticle (p : ProblemDef) (params : PSOParams) (particle bestNeighbor : Particle)
    (r : Rng) : Particle × Rng :=
  let maxVel := psoVelocityRange p params.maxVelocity
  let res := psoUpdateParticleGo params.inertiaWeight params.cognitiveCoefficient
    params.socialCoefficient maxVel particle.personalBestPosition
    bestNeighbor.personalBestPosition p.dimension 0 particle.velocity particle.genotype r
  ({ particle with velocity := res.1.1, genotype := p.repair res.1.2 }, res.2)

/-- The per-particle loop of `ParticleSwarmOptimization.step()`: find the
best neighbor (against the partially updated swarm, as in the source),
update velocity/position, re-evaluate, and raise the personal best. -/
def psoStepGo (p : ProblemDef) (params : PSOParams) (globalBest : Option Individual) :
    ℕ → ℕ → List Particle → Rng → List Particle × Rng
  | 0, _, particles, r => (particles, r)
  | k + 1, i, particles, r =>
      let particle := particles.getD i default
      let bestNeighbor := psoFindBestNeighbor params particles globalBest particle
      let up := psoUpdateParticle p params particle bestNeighbor r
      let fitness := psoEvaluateFitness p up.1.genotype
      let withFit := { up.1 with fitness := fitness }
      let final :=
        if fitness > withFit.personalBestFitness then
          { withFit with personalBestPosition := withFit.genotype,
                         personalBestFitness := fitness }
        else withFit
      psoStepGo p params globalBest k (i + 1) (particles.set i final) up.2

/-- `ParticleSwarmOptimization.updateGlobalBest()`: replace the stored
global best only when the swarm's current best fitness is strictly better
(or no best exists yet); the stored copy keeps only genotype and fitness. -/
def psoUpdateGlobalBest (s : PSOState) : PSOState :=
  let currentBest := s.particles.foldl
    (fun best current => if current.fitness > best.fitness then current else best)
    (s.particles.headD default)
  match s.globalBest with
  | none => { s with globalBest := some ⟨currentBest.genotype, currentBest.fitness⟩ }
  | some gb =>
      if currentBest.fitness > gb.fitness then
        { s with globalBest := some ⟨currentBest.genotype, currentBest.fitness⟩ }
      else s

/-- PSO's own pairwise-distance sum (`updateStats` double loop). -/
def psoPairwiseSum (env : Env) : List Particle → ℚ
  | [] => 0
  | x :: xs =>
      xs.foldl (fun acc y => acc + euclideanDistance env x.genotype y.genotype) 0 +
        psoPairwiseSum env xs

/-- PSO's diversity measure (average pairwise distance, `0` with no pairs). -/
def psoDiversityOf (env : Env) (particles : List Particle) : ℚ :=
  let pc : ℕ := particles.length * (particles.length - 1) / 2
  if 0 < pc then psoPairwiseSum env particles / (pc : ℚ) else 0

/-- `ParticleSwarmOptimization.updateStats()`. -/
def psoUpdateStats (env : Env) (s : PSOState) : PSOState :=
  let avgFitness := (s.particles.foldl (fun sum q => sum + q.fitness) 0) /
    (s.particles.length : ℚ)
  let diversity := psoDiversityOf env s.particles
  let bestFit := match s.globalBest with | some b => b.fitness | none => 0
  { s with stats :=
      { currentGeneration := s.iteration
        bestFitness := bestFit
        averageFitness := avgFitness
        diversityMeasure := diversity
        history :=
          { bestFitness := s.stats.history.bestFitness ++ [bestFit]
            averageFitness := s.stats.history.averageFitness ++ [avgFitness]
            diversity := s.stats.history.diversity ++ [diversity] } } }

/-- `ParticleSwarmOptimization.initializePopulation()`. -/
def psoInitializePopulation (env : Env) (p : ProblemDef) (s : PSOState) : PSOState :=
  let pr := psoInitPopLoop p s.params.maxVelocity s.params.populationSize s.rng
  let parts := psoSetupTopology s.params pr.1
  psoUpdateStats env (psoUpdateGlobalBest { s with particles := parts, rng := pr.2 })

/-- `ParticleSwarmOptimization.step()`: implicit initialization on an
empty swarm; otherwise the per-particle update loop, `updateGlobalBest`,
`updateStats`, iteration increment. -/
def psoStep (env : Env) (p : ProblemDef) (s : PSOState) : PSOState :=
  if s.particles.length = 0 then psoInitializePopulation env p s
  else
    let res := psoStepGo p s.params s.globalBest s.particles.length 0 s.particles s.rng
    let s1 := psoUpdateStats env (psoUpdateGlobalBest { s with particles := res.1, rng := res.2 })
    { s1 with iteration := s1.iteration + 1 }

/-- `ParticleSwarmOptimization.reset()`: clear all state, then immediately
call `initializePopulation()` (like DE/ES, reset does not leave the
instance uninitialized). -/
def psoReset (env : Env) (p : ProblemDef) (s : PSOState) : PSOState :=
  psoInitializePopulation env p
    { s with particles := [], globalBest := none, iteration := 0, stats := emptyStats }

/-- `ParticleSwarmOptimization.setParams(params)`: merge only. -/
def psoSetParams (s : PSOState) (patch : PSOParamsPatch) : PSOState :=
  { s with params := s.params.merge patch }

/-- `ParticleSwarmOptimization.initialize(params)`: merge then `reset()`. -/
def psoInitialize (env : Env) (p : ProblemDef) (s : PSOState) (patch : PSOParamsPatch) :
    PSOState :=
  psoReset env p { s with params := s.params.merge patch }

/-! ## Claim C1, positive part: machinery for best-fitness monotonicity -/

/-- `GeneticAlgorithm.getBest()` (assigns `findBest()` when no best is
stored; the returned individual is modelled). -/
def gaGetBest (s : GAState) : Individual :=
  match s.best with
  | some b => b
  | none => gaFindBest s.population

/-- `DifferentialEvolution.getBest()`. -/
def deGetBest (s : DEState) : Individual :=
  match s.best with
  | some b => b
  | none =>
      if s.population.length > 0 then reduceBest s.population
      else s.population.getD 0 default

/-- `EvolutionStrategy.getBest()`. -/
def esGetBest (s : ESState) : Individual :=
  match s.best with
  | some b => b
  | none =>
      if s.population.length > 0 then reduceBest s.population
      else s.population.getD 0 default

/-- `ParticleSwarmOptimization.getBest()` (`globalBest || particles[0]`,
viewed as an individual). -/
def psoGetBest (s : PSOState) : Individual :=
  match s.globalBest with
  | some b => b
  | none =>
      let q := s.particles.getD 0 default
      ⟨q.genotype, q.fitness⟩

/-- `SimulatedAnnealing.getBest()` (`this.best!`). -/
def saGetBest (s : SAState) : Individual :=
  s.best.getD default

/-- A driver run of the Evolution Strategy: one `step()` per fuel entry
(`none` when some step's redraw loops exhaust their fuel). -/
def esRun (env : Env) (p : ProblemDef) : ESState → List ℕ → Option ESState
  | s, [] => some s
  | s, f :: fs =>
      match esStep env p f s with
      | none => none
      | some s2 => esRun env p s2 fs

/-- The ES run invariant: parameters that keep the survivor pool nonempty,
a nonempty population, and a recorded history consisting of the constant
`0` placeholder from `initializePopulation` followed by a monotone tail
tracking the stored best (the tail is empty exactly while `best` is still
`null`). -/
def esHistInv (s : ESState) : Prop :=
  1 ≤ s.params.mu ∧ 1 ≤ s.params.lambda ∧ s.population ≠ [] ∧
    ((s.best = none ∧ s.stats.history.bestFitness = [0]) ∨
     (∃ b t, s.best = some b ∧ s.stats.history.bestFitness = 0 :: t ∧
       t.getLast? = some b.fitness ∧ List.Chain' (· ≤ ·) t ∧
       (∀ x ∈ t, x ≤ b.fitness) ∧ (∀ x ∈ s.population, x.fitness ≤ b.fitness)))

/-- A fresh GA instance (constructor defaults, before any population). -/
def c1GaState : GAState :=
  ⟨gaDefaultParams, [], none, 0, emptyStats, listRng [] (1/2)⟩

/-- A fresh DE instance (constructor defaults, before any population). -/
def c1DeState : DEState :=
  ⟨deDefaultParams, [], none, 0, emptyStats, listRng [] (1/2)⟩

/-- A fresh PSO instance (constructor defaults, before any swarm). -/
def c1PsoState : PSOState :=
  ⟨psoDefaultParams, [], none, 0, emptyStats, listRng [] (1/2)⟩

/-- A fresh SA instance (constructor defaults, before any population). -/
def c1SaState : SAState :=
  ⟨saDefaultParams, [], none, none, 100, 0, emptyStats, listRng [] (1/2)⟩

/-- A fresh ES instance (constructor defaults, before any population). -/
def c1EsState : ESState :=
  ⟨esDefaultParams, [], none, 0, emptyStats, [], listRng [] (1/2)⟩

/-! ## Claim C4: repair is idempotent and lands inside the bounds -/

theorem clampComp_idem (b : ℚ × ℚ) (x : ℚ) : clampComp b (clampComp b x) = clampComp b x := by
  unfold clampComp
  dsimp only
  split_ifs <;> rfl

theorem repairAux_idem (bounds : List (ℚ × ℚ)) (d : ℕ) :
    ∀ (i : ℕ) (v : Vec), repairAux bounds d i (repairAux bounds d i v) = repairAux bounds d i v := by
  intro i v
  induction v generalizing i with
  | nil => simp [repairAux]
  | cons x xs ih =>
      simp only [repairAux]
      by_cases h : i < d
      · simp [h, clampComp_idem, ih]
      · simp [h, ih]

theorem clampComp_mem (b : ℚ × ℚ) (x : ℚ) (hb : b.1 ≤ b.2) :
    b.1 ≤ clampComp b x ∧ clampComp b x ≤ b.2 := by
  unfold clampComp
  dsimp only
  split_ifs <;> constructor <;> linarith

theorem repairAux_getD (bounds : List (ℚ × ℚ)) (d : ℕ) :
    ∀ (i : ℕ) (v : Vec) (j : ℕ), j < v.length →
      (repairAux bounds d i v).getD j 0 =
        (if i + j < d then clampComp (bounds.getD (i + j) (0, 0)) (v.getD j 0) else v.getD j 0) := by
  intro i v
  induction v generalizing i with
  | nil => intro j hj; simp at hj
  | cons x xs ih =>
      intro j hj
      cases j with
      | zero => simp [repairAux]
      | succ k =>
          simp only [repairAux, List.getD_cons_succ]
          have hk : k < xs.length := by simpa using Nat.lt_of_succ_lt_succ hj
          have := ih (i + 1) k hk
          rw [this]
          have harith : i + 1 + k = i + (k + 1) := by ring
          rw [harith]

theorem repairAux_length (bounds : List (ℚ × ℚ)) (d : ℕ) :
    ∀ (i : ℕ) (v : Vec), (repairAux bounds d i v).length = v.length := by
  intro i v
  induction v generalizing i with
  | nil => simp [repairAux]
  | cons x xs ih => simp [repairAux, ih]

/-- Claim C4: for every vector `v` of length `problem.dimension` (over a
problem whose per-dimension bounds are well-formed, `min ≤ max`, as all the
benchmark problems' bounds are), `repair` is idempotent —
`repair (repair v) = repair v` — and every component of the repaired vector
lies within its dimension's bounds. -/
theorem repair_idempotent_and_in_bounds (p : ProblemDef) (v : Vec)
    (hlen : v.length = p.dimension)
    (hwf : ∀ i < p.dimension, (p.bounds.getD i (0, 0)).1 ≤ (p.bounds.getD i (0, 0)).2) :
    p.repair (p.repair v) = p.repair v ∧
    (p.repair v).length = p.dimension ∧
    ∀ i < p.dimension,
      (p.bounds.getD i (0, 0)).1 ≤ (p.repair v).getD i 0 ∧
      (p.repair v).getD i 0 ≤ (p.bounds.getD i (0, 0)).2 := by
  refine ⟨repairAux_idem p.bounds p.dimension 0 v, ?_, ?_⟩
  · rw [ProblemDef.repair, repairAux_length, hlen]
  · intro i hi
    have hiv : i < v.length := by rw [hlen]; exact hi
    have := repairAux_getD p.bounds p.dimension 0 v i hiv
    simp only [Nat.zero_add] at this
    rw [ProblemDef.repair, this, if_pos hi]
    exact clampComp_mem _ _ (hwf i hi)

/-- Witness for C4 at a concrete input: the 2-dimensional sphere problem and
the out-of-bounds vector `[-7, 3]`. -/
theorem repair_idempotent_and_in_bounds_witness :
    (([-7, 3] : Vec).length = (sphereProblem 2).dimension ∧
      ∀ i < (sphereProblem 2).dimension,
        ((sphereProblem 2).bounds.getD i (0, 0)).1 ≤ ((sphereProblem 2).bounds.getD i (0, 0)).2) ∧
    (sphereProblem 2).repair ((sphereProblem 2).repair [-7, 3]) =
      (sphereProblem 2).repair [-7, 3] ∧
    ((sphereProblem 2).repair [-7, 3]).length = (sphereProblem 2).dimension ∧
    ∀ i < (sphereProblem 2).dimension,
      ((sphereProblem 2).bounds.getD i (0, 0)).1 ≤ ((sphereProblem 2).repair [-7, 3]).getD i 0 ∧
      ((sphereProblem 2).repair [-7, 3]).getD i 0 ≤ ((sphereProblem 2).bounds.getD i (0, 0)).2 := by
  have hwf : ∀ i < (sphereProblem 2).dimension,
      ((sphereProblem 2).bounds.getD i (0, 0)).1 ≤ ((sphereProblem 2).bounds.getD i (0, 0)).2 := by
    intro i hi
    have hi2 : i < 2 := by simpa [sphereProblem] using hi
    interval_cases i <;> norm_num [sphereProblem]
  refine ⟨⟨by decide, hwf⟩, ?_⟩
  exact repair_idempotent_and_in_bounds (sphereProblem 2) [-7, 3] (by decide) hwf

/-! ## Claim C3: evaluate and dimension mismatches

The claim asserts that every Problem's `evaluate` throws on a length
mismatch.  That is true of the `evaluate` closure installed by
`createProblemFromConfig` (registry path), but the class-based benchmark
problems (`SphereFunction` etc., constructed by `createProblem` in the
visualization utilities) override `evaluate` with bodies that perform no
dimension check at all and return a number for a vector of any length. -/

/-- Counterexample to C3 as stated: the class-based 2-dimensional
`SphereFunction` evaluates the length-3 vector `[1, 1, 1]` to the number `3`
without throwing, although the vector's length differs from
`problem.dimension`. -/
theorem evaluate_mismatch_no_throw_counterexample :
    (sphereProblem 2).dimension = 2 ∧
    ([1, 1, 1] : Vec).length ≠ (sphereProblem 2).dimension ∧
    sphereClassEvaluate [1, 1, 1] = 3 := by
  refine ⟨rfl, by decide, by norm_num [sphereClassEvaluate]⟩

/-- Claim C3, amended: the `evaluate` closure installed by
`createProblemFromConfig` throws exactly when the supplied vector's length
differs from `problem.dimension`, and returns the registered objective's
value (a number, without throwing) when the length matches; the class-based
benchmark problems' `evaluate` bodies never throw and return a number for a
vector of any length (in particular for vectors of length exactly
`dimension`). -/
theorem registry_evaluate_error_iff (p : ProblemDef) (v : Vec) :
    (registryEvaluate p v matches Except.error _) ↔ v.length ≠ p.dimension := by
  unfold registryEvaluate
  by_cases h : v.length ≠ p.dimension
  · simp [h]
  · simp [h]

/-- Witness for C3's amended theorem at concrete inputs: on the registry-path
2-dimensional sphere problem, `evaluate [1, 1, 1]` errors and
`evaluate [1, 1]` returns `2`. -/
theorem registry_evaluate_error_iff_witness :
    ((registryEvaluate (sphereProblem 2) [1, 1, 1] matches Except.error _) ↔
      ([1, 1, 1] : Vec).length ≠ (sphereProblem 2).dimension) ∧
    registryEvaluate (sphereProblem 2) [1, 1] = Except.ok 2 := by
  constructor
  · exact registry_evaluate_error_iff (sphereProblem 2) [1, 1, 1]
  · show registryEvaluate (sphereProblem 2) [1, 1] = Except.ok 2
    norm_num [registryEvaluate, sphereProblem, sphereClassEvaluate]

/-! ## Claim C6: the SA temperature trace is geometric -/

theorem saStep_temperature_step (env : Env) (p : ProblemDef) (s : SAState)
    (h : s.current.isSome) :
    (saStep env p s).temperature = s.temperature * s.params.coolingRate ∧
    (saStep env p s).current.isSome ∧
    (saStep env p s).params = s.params := by
  obtain ⟨c, hc⟩ := Option.isSome_iff_exists.mp h
  simp only [saStep, hc]
  unfold saUpdateStats
  dsimp only
  split_ifs <;> simp

theorem saStep_temperature_iter (env : Env) (p : ProblemDef) :
    ∀ (k : ℕ) (s : SAState), s.current.isSome →
      ((saStep env p)^[k] s).temperature = s.temperature * s.params.coolingRate ^ k ∧
      ((saStep env p)^[k] s).current.isSome ∧
      ((saStep env p)^[k] s).params = s.params := by
  intro k
  induction k with
  | zero => intro s hs; simpa using hs
  | succ n ih =>
      intro s hs
      have h1 := saStep_temperature_step env p s hs
      have h2 := ih (saStep env p s) h1.2.1
      rw [Function.iterate_succ_apply]
      refine ⟨?_, h2.2.1, by rw [h2.2.2, h1.2.2]⟩
      rw [h2.1, h1.1, h1.2.2]
      ring

theorem saInitializePopulation_fields (p : ProblemDef) (s : SAState) :
    (saInitializePopulation p s).current.isSome ∧
    (saInitializePopulation p s).temperature = s.temperature ∧
    (saInitializePopulation p s).params = s.params := by
  simp only [saInitializePopulation]
  unfold saUpdateStats
  dsimp only
  split_ifs <;> simp

/-- Claim C6: for Simulated Annealing, after `initialize(params)` and
`initializePopulation()` followed by `k` consecutive `step()` calls (no
intervening `reset()`, `initialize()` or `setParams()`), the internal
temperature equals `initialTemperature * coolingRate ^ k` — each iteration
multiplies the temperature by `coolingRate` exactly once, and the implicit
initialization performed by a `step()` on an uninitialized instance does not
cool. -/
theorem sa_temperature_trace (env : Env) (p : ProblemDef) (s0 : SAState)
    (patch : SAParamsPatch) (k : ℕ) :
    ((saStep env p)^[k] (saInitializePopulation p (saInitialize s0 patch))).temperature =
      (s0.params.merge patch).initialTemperature * (s0.params.merge patch).coolingRate ^ k := by
  have hinit := saInitializePopulation_fields p (saInitialize s0 patch)
  have hiter := saStep_temperature_iter env p k
    (saInitializePopulation p (saInitialize s0 patch)) hinit.1
  rw [hiter.1, hinit.2.1, hinit.2.2]
  simp [saInitialize, saReset]

/-- Witness for C6 at a concrete input: default parameters with
`initialTemperature = 100`, `coolingRate = 95/100`, three steps. -/
theorem sa_temperature_trace_witness :
    ((saStep zeroEnv (sphereProblem 2))^[3]
        (saInitializePopulation (sphereProblem 2)
          (saInitialize
            ⟨saDefaultParams, [], none, none, 100, 0, emptyStats, listRng [] (1/2)⟩
            {}))).temperature = 6859/80 := by
  rw [sa_temperature_trace zeroEnv (sphereProblem 2)
    ⟨saDefaultParams, [], none, none, 100, 0, emptyStats, listRng [] (1/2)⟩ {} 3]
  norm_num [SAParams.merge, saDefaultParams]

theorem deSelectLoop_length (p : ProblemDef) (s : DEState) :
    ∀ (targets : List Individual) (i : ℕ) (r : Rng),
      (deSelectLoop p s targets i r).1.length = targets.length := by
  intro targets
  induction targets with
  | nil => intro i r; rfl
  | cons target rest ih => intro i r; simp [deSelectLoop, ih]

theorem deSelectLoop_getD (p : ProblemDef) (s : DEState) :
    ∀ (targets : List Individual) (j : ℕ) (i0 : ℕ) (r : Rng), j < targets.length →
      (deSelectLoop p s targets i0 r).1.getD j default =
        (let t := deTrial p s (i0 + j) (deRngAfter p s (targets.take j) i0 r)
         let tf := deEvaluateFitness p t.1
         if tf ≥ (targets.getD j default).fitness then (⟨t.1, tf⟩ : Individual)
         else targets.getD j default) := by
  intro targets
  induction targets with
  | nil => intro j i0 r hj; simp at hj
  | cons target rest ih =>
      intro j i0 r hj
      cases j with
      | zero =>
          simp [deSelectLoop, deRngAfter]
      | succ k =>
          have hk : k < rest.length := by simpa using Nat.lt_of_succ_lt_succ hj
          simp only [deSelectLoop, List.getD_cons_succ, List.take_succ_cons, deRngAfter]
          rw [ih k (i0 + 1) (deTrial p s i0 r).2 hk]
          have harith : i0 + 1 + k = i0 + (k + 1) := by ring
          rw [harith]

theorem deUpdateBest_population (s : DEState) : (deUpdateBest s).population = s.population := by
  unfold deUpdateBest
  cases s.best <;> dsimp only <;> first | rfl | (split_ifs <;> rfl)

theorem deUpdateStats_population (env : Env) (s : DEState) :
    (deUpdateStats env s).population = s.population := rfl

/-- Claim C2: in every Differential Evolution `step()` on a non-empty
population, for every population index `i`, the trial vector constructed
for slot `i` replaces the target exactly when its (maximized) fitness is at
least the target's fitness; when the trial's fitness is strictly lower the
target individual is retained unchanged at the same index, and the
population length is preserved. -/
theorem de_trial_replacement (env : Env) (p : ProblemDef) (s : DEState)
    (hpop : s.population.length ≠ 0) (i : ℕ) (hi : i < s.population.length) :
    (deStep env p s).population.length = s.population.length ∧
    (deStep env p s).population.getD i default =
      (if (deTrialAt p s i).2 ≥ (s.population.getD i default).fitness
       then (⟨(deTrialAt p s i).1, (deTrialAt p s i).2⟩ : Individual)
       else s.population.getD i default) := by
  have hstep : (deStep env p s).population = (deSelectLoop p s s.population 0 s.rng).1 := by
    simp only [deStep, if_neg hpop]
    rw [show ∀ t : DEState, ({ t with generation := t.generation + 1 } : DEState).population =
      t.population from fun _ => rfl]
    rw [deUpdateStats_population, deUpdateBest_population]
  constructor
  · rw [hstep, deSelectLoop_length]
  · rw [hstep, deSelectLoop_getD p s s.population i 0 s.rng hi]
    simp only [deTrialAt, Nat.zero_add]

/-- Witness for C2 at a concrete input: a 4-individual population over a
1-dimensional problem. -/
theorem de_trial_replacement_witness :
    ((([(⟨[1], -1⟩ : Individual), ⟨[2], -4⟩, ⟨[3], -9⟩, ⟨[4], -16⟩] : List Individual).length ≠ 0) ∧
      0 < ([(⟨[1], -1⟩ : Individual), ⟨[2], -4⟩, ⟨[3], -9⟩, ⟨[4], -16⟩] : List Individual).length) ∧
    ((deStep zeroEnv (sphereProblem 1)
        ⟨deDefaultParams, [⟨[1], -1⟩, ⟨[2], -4⟩, ⟨[3], -9⟩, ⟨[4], -16⟩], some ⟨[1], -1⟩, 0,
          emptyStats, listRng [] (1/2)⟩).population.length =
      ([(⟨[1], -1⟩ : Individual), ⟨[2], -4⟩, ⟨[3], -9⟩, ⟨[4], -16⟩] : List Individual).length ∧
    (deStep zeroEnv (sphereProblem 1)
        ⟨deDefaultParams, [⟨[1], -1⟩, ⟨[2], -4⟩, ⟨[3], -9⟩, ⟨[4], -16⟩], some ⟨[1], -1⟩, 0,
          emptyStats, listRng [] (1/2)⟩).population.getD 0 default =
      (if (deTrialAt (sphereProblem 1)
            ⟨deDefaultParams, [⟨[1], -1⟩, ⟨[2], -4⟩, ⟨[3], -9⟩, ⟨[4], -16⟩], some ⟨[1], -1⟩, 0,
              emptyStats, listRng [] (1/2)⟩ 0).2 ≥
            (([(⟨[1], -1⟩ : Individual), ⟨[2], -4⟩, ⟨[3], -9⟩, ⟨[4], -16⟩] :
              List Individual).getD 0 default).fitness
       then (⟨(deTrialAt (sphereProblem 1)
                ⟨deDefaultParams, [⟨[1], -1⟩, ⟨[2], -4⟩, ⟨[3], -9⟩, ⟨[4], -16⟩], some ⟨[1], -1⟩,
                  0, emptyStats, listRng [] (1/2)⟩ 0).1,
              (deTrialAt (sphereProblem 1)
                ⟨deDefaultParams, [⟨[1], -1⟩, ⟨[2], -4⟩, ⟨[3], -9⟩, ⟨[4], -16⟩], some ⟨[1], -1⟩,
                  0, emptyStats, listRng [] (1/2)⟩ 0).2⟩ : Individual)
       else ([(⟨[1], -1⟩ : Individual), ⟨[2], -4⟩, ⟨[3], -9⟩, ⟨[4], -16⟩] :
              List Individual).getD 0 default)) :=
  ⟨⟨by decide, by decide⟩,
    de_trial_replacement zeroEnv (sphereProblem 1)
      ⟨deDefaultParams, [⟨[1], -1⟩, ⟨[2], -4⟩, ⟨[3], -9⟩, ⟨[4], -16⟩], some ⟨[1], -1⟩, 0,
        emptyStats, listRng [] (1/2)⟩ (by decide) 0 (by decide)⟩

/-! ## Claim C5: GA elitism carries the best of the previous generation -/

theorem gaOffspringLoop_length (env : Env) (p : ProblemDef) (s : GAState) :
    ∀ (n : ℕ) (r : Rng), (gaOffspringLoop env p s n r).1.length = n := by
  intro n
  induction n using Nat.strong_induction_on with
  | _ n ih =>
      intro r
      match n with
      | 0 => rfl
      | 1 => rfl
      | m + 2 =>
          simp only [gaOffspringLoop, List.length_cons]
          rw [ih m (by omega)]

theorem gaUpdateStats_population (env : Env) (s : GAState) :
    (gaUpdateStats env s).population = s.population := rfl

/-- Claim C5: in the Genetic Algorithm, for every `step()` on an initialized
population (non-empty, with a stored best `b` that is a member of the
previous generation and has maximal fitness in it — the invariant
`initializePopulation`/`step` maintain, proved below), the new population is
exactly `b` followed by freshly produced offspring filling every remaining
slot up to `populationSize`; in particular `b` is carried over
unconditionally into slot 0 for every sequence of RNG draws. -/
theorem ga_elitism (env : Env) (p : ProblemDef) (s : GAState) (b : Individual)
    (hpop : s.population.length ≠ 0) (hb : s.best = some b)
    (hmem : b ∈ s.population)
    (hmax : ∀ ind ∈ s.population, ind.fitness ≤ b.fitness) :
    (gaStep env p s).population =
      b :: (gaOffspringLoop env p s (s.params.populationSize - 1) s.rng).1 ∧
    (gaOffspringLoop env p s (s.params.populationSize - 1) s.rng).1.length =
      s.params.populationSize - 1 := by
  constructor
  · simp only [gaStep, if_neg hpop, hb]
    rw [gaUpdateStats_population]
    simp
  · exact gaOffspringLoop_length env p s (s.params.populationSize - 1) s.rng

/-- Witness for C5 at a concrete input: a 2-individual population with the
stored best `⟨[1], 5⟩` and `populationSize = 3`. -/
theorem ga_elitism_witness :
    (([(⟨[1], 5⟩ : Individual), ⟨[2], 3⟩] : List Individual).length ≠ 0 ∧
      (⟨[1], 5⟩ : Individual) ∈ ([(⟨[1], 5⟩ : Individual), ⟨[2], 3⟩] : List Individual) ∧
      ∀ ind ∈ ([(⟨[1], 5⟩ : Individual), ⟨[2], 3⟩] : List Individual),
        ind.fitness ≤ (⟨[1], 5⟩ : Individual).fitness) ∧
    ((gaStep zeroEnv (sphereProblem 1)
        ⟨{ gaDefaultParams with populationSize := 3 }, [⟨[1], 5⟩, ⟨[2], 3⟩],
          some ⟨[1], 5⟩, 0, emptyStats, listRng [] (1/2)⟩).population =
      (⟨[1], 5⟩ : Individual) ::
        (gaOffspringLoop zeroEnv (sphereProblem 1)
          ⟨{ gaDefaultParams with populationSize := 3 }, [⟨[1], 5⟩, ⟨[2], 3⟩],
            some ⟨[1], 5⟩, 0, emptyStats, listRng [] (1/2)⟩
          (({ gaDefaultParams with populationSize := 3 } : GAParams).populationSize - 1)
          (listRng [] (1/2))).1 ∧
      (gaOffspringLoop zeroEnv (sphereProblem 1)
          ⟨{ gaDefaultParams with populationSize := 3 }, [⟨[1], 5⟩, ⟨[2], 3⟩],
            some ⟨[1], 5⟩, 0, emptyStats, listRng [] (1/2)⟩
          (({ gaDefaultParams with populationSize := 3 } : GAParams).populationSize - 1)
          (listRng [] (1/2))).1.length =
        ({ gaDefaultParams with populationSize := 3 } : GAParams).populationSize - 1) :=
  ⟨⟨by decide, by decide, by decide⟩,
    ga_elitism zeroEnv (sphereProblem 1)
      ⟨{ gaDefaultParams with populationSize := 3 }, [⟨[1], 5⟩, ⟨[2], 3⟩],
        some ⟨[1], 5⟩, 0, emptyStats, listRng [] (1/2)⟩
      ⟨[1], 5⟩ (by decide) rfl (by decide) (by decide)⟩

/-! ## Claim C10: ES `initialize` forces `mu = populationSize` -/

theorem esInitPopLoop_length (p : ProblemDef) :
    ∀ (n : ℕ) (r : Rng), (esInitPopLoop p n r).1.length = n := by
  intro n
  induction n with
  | zero => intro r; rfl
  | succ m ih => intro r; simp [esInitPopLoop, ih]

theorem esUpdateStats_population (env : Env) (s : ESState) :
    (esUpdateStats env s).population = s.population := rfl

theorem esInitializePopulation_shape (env : Env) (p : ProblemDef) (s : ESState) :
    (esInitializePopulation env p s).population.length = s.params.mu ∧
    (esInitializePopulation env p s).params = s.params := by
  constructor
  · rw [esInitializePopulation, esUpdateStats_population]
    exact esInitPopLoop_length p s.params.mu _
  · rfl

/-- Claim C10, amended: whenever `initialize()` receives a params object
whose `populationSize` is present and truthy (nonzero), the parent count
`mu` is set to that `populationSize` — silently overriding any `mu`
supplied in the same object — and the population created by the reset's
`initializePopulation()` has exactly that size.  (A `populationSize` of `0`
is falsy in JavaScript and skips the synchronization, which is the
counterexample below.) -/
theorem es_initialize_syncs_mu (env : Env) (p : ProblemDef) (s : ESState)
    (patch : ESParamsPatch) (n : ℕ) (hps : patch.populationSize = some n) (hn : n ≠ 0) :
    (esInitialize env p s patch).params.mu = n ∧
    (esInitialize env p s patch).params.populationSize = n ∧
    (esInitialize env p s patch).population.length = n := by
  have htruthy : jsTruthyNat patch.populationSize = true := by
    rw [hps]; simp [jsTruthyNat, hn]
  have hmu : (esSyncPatch patch).mu = some n ∧ (esSyncPatch patch).populationSize = some n := by
    unfold esSyncPatch
    by_cases hcond : jsTruthyNat patch.populationSize ∧
        (¬ jsTruthyNat patch.mu ∨ patch.mu ≠ patch.populationSize)
    · rw [if_pos hcond]; exact ⟨hps, hps⟩
    · rw [if_neg hcond]
      push_neg at hcond
      have h2 := hcond (by rw [htruthy])
      exact ⟨by rw [h2.2, hps], hps⟩
  have hparams : (({ s with params := s.params.merge (esSyncPatch patch) } : ESState)).params.mu
      = n ∧ (({ s with params := s.params.merge (esSyncPatch patch) } : ESState)).params.populationSize = n := by
    constructor
    · show (s.params.merge (esSyncPatch patch)).mu = n
      rw [ESParams.merge]; rw [hmu.1]; rfl
    · show (s.params.merge (esSyncPatch patch)).populationSize = n
      rw [ESParams.merge]; rw [hmu.2]; rfl
  unfold esInitialize esReset
  have hshape := esInitializePopulation_shape env p
    { ({ s with params := s.params.merge (esSyncPatch patch) } : ESState) with
        population := [], best := none, generation := 0, stats := emptyStats }
  refine ⟨?_, ?_, ?_⟩
  · rw [hshape.2]; exact hparams.1
  · rw [hshape.2]; exact hparams.2
  · rw [hshape.1]; exact hparams.1

/-- Counterexample to C10 as stated: `initialize({ populationSize: 0,
mu: 5 })` — the params object contains a `populationSize`, but `0` is falsy
in JavaScript, so `mu` is NOT overridden: it stays `5` and the initialized
population has 5 individuals, not `populationSize` many. -/
theorem es_initialize_zero_population_counterexample :
    (esInitialize zeroEnv (sphereProblem 1)
        ⟨esDefaultParams, [], none, 0, emptyStats, [], listRng [] (1/2)⟩
        { populationSize := some 0, mu := some 5 }).params.populationSize = 0 ∧
    (esInitialize zeroEnv (sphereProblem 1)
        ⟨esDefaultParams, [], none, 0, emptyStats, [], listRng [] (1/2)⟩
        { populationSize := some 0, mu := some 5 }).params.mu = 5 ∧
    (esInitialize zeroEnv (sphereProblem 1)
        ⟨esDefaultParams, [], none, 0, emptyStats, [], listRng [] (1/2)⟩
        { populationSize := some 0, mu := some 5 }).population.length = 5 := by
  have hsync : esSyncPatch { populationSize := some 0, mu := some 5 } =
      ({ populationSize := some 0, mu := some 5 } : ESParamsPatch) := by
    unfold esSyncPatch
    rw [if_neg]
    intro hcond
    simp [jsTruthyNat] at hcond
  unfold esInitialize esReset
  rw [hsync]
  refine ⟨rfl, rfl, ?_⟩
  rw [esInitializePopulation, esUpdateStats_population]
  exact esInitPopLoop_length (sphereProblem 1) _ _

/-- Witness for C10's amended theorem at a concrete input:
`initialize({ populationSize: 7, mu: 3 })` yields `mu = 7` and a population
of 7. -/
theorem es_initialize_syncs_mu_witness :
    (({ populationSize := some 7, mu := some 3 } : ESParamsPatch).populationSize = some 7 ∧
      (7 : ℕ) ≠ 0) ∧
    ((esInitialize zeroEnv (sphereProblem 1)
        ⟨esDefaultParams, [], none, 0, emptyStats, [], listRng [] (1/2)⟩
        { populationSize := some 7, mu := some 3 }).params.mu = 7 ∧
      (esInitialize zeroEnv (sphereProblem 1)
        ⟨esDefaultParams, [], none, 0, emptyStats, [], listRng [] (1/2)⟩
        { populationSize := some 7, mu := some 3 }).params.populationSize = 7 ∧
      (esInitialize zeroEnv (sphereProblem 1)
        ⟨esDefaultParams, [], none, 0, emptyStats, [], listRng [] (1/2)⟩
        { populationSize := some 7, mu := some 3 }).population.length = 7) :=
  ⟨⟨rfl, by decide⟩,
    es_initialize_syncs_mu zeroEnv (sphereProblem 1)
      ⟨esDefaultParams, [], none, 0, emptyStats, [], listRng [] (1/2)⟩
      { populationSize := some 7, mu := some 3 } 7 rfl (by decide)⟩

/-! ## Claim C9: the onlooker phase performs exactly `populationSize`
attempts when it terminates, but termination is not guaranteed -/

theorem abcOnlookerGo_count (p : ProblemDef) (sf total : ℚ) (nFuel : ℕ) :
    ∀ (fuel count i : ℕ) (pop : List Individual) (trials : List ℕ) (r : Rng)
      (res : (List Individual × List ℕ) × (ℕ × Rng)),
      count ≤ pop.length →
      abcOnlookerGo p sf total nFuel fuel count i pop trials r = some res →
      res.2.1 = pop.length ∧ res.1.1.length = pop.length := by
  intro fuel
  induction fuel with
  | zero =>
      intro count i pop trials r res hc h
      exact absurd h (by simp [abcOnlookerGo])
  | succ n ih =>
      intro count i pop trials r res hc h
      rw [abcOnlookerGo] at h
      by_cases hlt : count < pop.length
      · rw [if_pos hlt] at h
        dsimp only at h
        by_cases hdraw : (r.next).1 < abcProbability p pop ((pop.getD i default).fitness) total
        · rw [if_pos hdraw] at h
          cases hg : abcGenerateNeighbor p sf pop i nFuel (r.next).2 with
          | none => rw [hg] at h; exact absurd h (by simp)
          | some ns =>
              rw [hg] at h
              dsimp only at h
              by_cases hbet : abcIsBetter p (abcEvaluateFitness p ns.1)
                  ((pop.getD i default).fitness)
              · rw [if_pos hbet] at h
                have := ih (count + 1) ((i + 1) % pop.length)
                  (pop.set i ⟨ns.1, abcEvaluateFitness p ns.1⟩)
                  (trials.set i 0) ns.2 res
                  (by rw [List.length_set]; omega) h
                rwa [List.length_set] at this
              · rw [if_neg hbet] at h
                exact ih (count + 1) ((i + 1) % pop.length) pop
                  (trials.set i ((trials.getD i 0) + 1)) ns.2 res (by omega) h
        · rw [if_neg hdraw] at h
          exact ih count ((i + 1) % pop.length) pop trials (r.next).2 res hc h
      · rw [if_neg hlt] at h
        have hres : res = ((pop, trials), (count, r)) := by
          exact (Option.some_inj.mp h).symm
        subst hres
        refine ⟨?_, rfl⟩
        show count = pop.length
        omega

/-- Claim C9, amended: whenever the onlooker-bee phase terminates, its
attempt counter equals the population length (exactly `populationSize`
search attempts on a freshly sized population), and the population length
is preserved; termination itself is NOT guaranteed for every sequence of
RNG draws (see the divergence counterexample). -/
theorem abc_onlooker_exact_attempts (p : ProblemDef) (sf : ℚ) (loopFuel nFuel : ℕ)
    (pop : List Individual) (trials : List ℕ) (r : Rng)
    (h : (abcOnlookerPhase p sf loopFuel nFuel pop trials r).isSome = true) :
    (abcOnlookerPhase p sf loopFuel nFuel pop trials r).map (fun res => res.2.1) =
      some pop.length ∧
    (abcOnlookerPhase p sf loopFuel nFuel pop trials r).map (fun res => res.1.1.length) =
      some pop.length := by
  obtain ⟨res, hres⟩ := Option.isSome_iff_exists.mp h
  rw [abcOnlookerPhase] at hres
  have hcount := abcOnlookerGo_count p sf (abcTotalFitness p pop) nFuel loopFuel 0 0 pop
    trials r res (Nat.zero_le _) hres
  rw [abcOnlookerPhase, hres]
  simp [hcount.1, hcount.2]

set_option maxRecDepth 100000 in
set_option maxHeartbeats 2000000 in
/-- Witness for C9's amended theorem at a concrete input: the onlooker
phase on `abcSpherePop` with the constant draw `1/2` terminates after
exactly 2 attempts (the population length). -/
theorem abc_onlooker_exact_attempts_witness :
    (abcOnlookerPhase (sphereProblem 1) (1/2) 10 3 abcSpherePop [0, 0]
        (listRng [] (1/2))).isSome = true ∧
    ((abcOnlookerPhase (sphereProblem 1) (1/2) 10 3 abcSpherePop [0, 0]
        (listRng [] (1/2))).map (fun res => res.2.1) = some abcSpherePop.length ∧
      (abcOnlookerPhase (sphereProblem 1) (1/2) 10 3 abcSpherePop [0, 0]
        (listRng [] (1/2))).map (fun res => res.1.1.length) = some abcSpherePop.length) := by
  have h : (abcOnlookerPhase (sphereProblem 1) (1/2) 10 3 abcSpherePop [0, 0]
      (listRng [] (1/2))).isSome = true := by
    norm_num [abcOnlookerPhase, abcOnlookerGo, abcTotalFitness, abcNormalizeFitness,
      abcProbability, abcGenerateNeighbor, abcPartnerIndex, abcEvaluateFitness, abcIsBetter,
      abcSpherePop, listRng, Rng.next, floorIdx, genoAt, vecAt, sphereProblem,
      sphereClassEvaluate, ProblemDef.repair, repairAux, clampComp, Int.toNat_ofNat,
      List.getD, List.set]
  exact ⟨h, abc_onlooker_exact_attempts (sphereProblem 1) (1/2) 10 3 abcSpherePop [0, 0]
    (listRng [] (1/2)) h⟩

theorem abcOnlookerGo_stuck :
    ∀ (fuel i pos : ℕ),
      abcOnlookerGo (sphereProblem 1) (1/2) (abcTotalFitness (sphereProblem 1) abcSpherePop)
        3 fuel 0 i abcSpherePop [0, 0] ⟨fun _ => 9/10, pos⟩ = none := by
  intro fuel
  induction fuel with
  | zero => intro i pos; rfl
  | succ n ih =>
      intro i pos
      rw [abcOnlookerGo]
      rw [if_pos (by decide : (0 : ℕ) < abcSpherePop.length)]
      dsimp only
      rw [if_neg ?hprob]
      case hprob =>
        show ¬ ((9 : ℚ)/10 < abcProbability (sphereProblem 1) abcSpherePop
          ((abcSpherePop.getD i default).fitness) (abcTotalFitness (sphereProblem 1) abcSpherePop))
        match i with
        | 0 =>
            norm_num [abcProbability, abcNormalizeFitness, abcTotalFitness, abcSpherePop,
              sphereProblem]
        | 1 =>
            norm_num [abcProbability, abcNormalizeFitness, abcTotalFitness, abcSpherePop,
              sphereProblem]
        | (m + 2) =>
            norm_num [abcProbability, abcNormalizeFitness, abcTotalFitness, abcSpherePop,
              sphereProblem, List.getD, show (default : Individual).fitness = 0 from rfl]
      exact ih ((i + 1) % abcSpherePop.length) (pos + 1)

/-- Counterexample to C9 as stated: on the 1-dimensional sphere problem
with the two food sources `abcSpherePop`, the RNG-draw sequence that is
constantly `9/10` exceeds both selection probabilities (`4721/5346` and
`625/5346`), so the onlooker-bee `while` loop never performs an attempt and
never exits — for NO amount of fuel does the phase return. -/
theorem abc_onlooker_divergence_counterexample :
    ¬ ∃ (loopFuel : ℕ) (res : (List Individual × List ℕ) × (ℕ × Rng)),
        abcOnlookerPhase (sphereProblem 1) (1/2) loopFuel 3 abcSpherePop [0, 0]
          ⟨fun _ => 9/10, 0⟩ = some res := by
  rintro ⟨fuel, res, h⟩
  rw [abcOnlookerPhase, abcOnlookerGo_stuck fuel 0 0] at h
  exact Option.noConfusion h

set_option maxRecDepth 1000000 in
set_option maxHeartbeats 8000000 in
/-- Counterexample to C1 as stated: one ABC `step()` after initialization
drives both trial counters over the `limit`, the scout phase replaces both
food sources (including the stored best, fitness `0`) with random
solutions, and `findBest()` then overwrites the stored best with the best
of the CURRENT population (fitness `147456/15625 ≈ 9.44`): the recorded
best-fitness history `[0, 147456/15625]` strictly regresses in ABC's
internal minimization ordering, and `getBest()` no longer holds the best
fitness ever seen (`0`). -/
theorem abc_best_regression_counterexample :
    (sphereProblem 1).isMinimization = true ∧
    abcCexState.stats.history.bestFitness = [0] ∧
    (abcStep zeroEnv (sphereProblem 1) 10 3 abcCexState).map
        (fun s => (s.stats.history.bestFitness, (s.best.getD default).fitness)) =
      some ([0, 147456/15625], 147456/15625) ∧
    abcIsBetter (sphereProblem 1) 0 (147456/15625) = true := by
  refine ⟨rfl, ?_, ?_, by norm_num [abcIsBetter, sphereProblem]⟩
  · norm_num [abcCexState, abcInitializePopulation, abcInitPopLoop, abcUpdateStats,
      abcFindBest, abcFindBestGo, abcIsBetter, abcEvaluateFitness, abcDefaultParams,
      ProblemDef.generateRandomSolution, genRandomAux, listRng, Rng.next, abcCexDraws,
      sphereProblem, sphereClassEvaluate, totalFitnessOf, abcCalculateDiversity,
      List.getD, pairwiseSum, euclideanDistance, sumSqDiffAux, zeroEnv, emptyStats]
  · norm_num [abcCexState, abcStep, abcInitializePopulation, abcInitPopLoop, abcUpdateStats,
      abcEmployedPhase, abcEmployedGo, abcOnlookerPhase, abcOnlookerGo, abcScoutPhase,
      abcScoutGo, abcFindBest, abcFindBestGo, abcIsBetter, abcEvaluateFitness,
      abcTotalFitness, abcNormalizeFitness, abcProbability, abcGenerateNeighbor,
      abcPartnerIndex, abcDefaultParams, ProblemDef.generateRandomSolution, genRandomAux,
      listRng, Rng.next, abcCexDraws, sphereProblem, sphereClassEvaluate, totalFitnessOf,
      abcCalculateDiversity, List.getD, List.set, pairwiseSum, euclideanDistance,
      sumSqDiffAux, zeroEnv, floorIdx, genoAt, vecAt, ProblemDef.repair, repairAux,
      clampComp, Int.toNat_ofNat, emptyStats]

/-! ## Claim C7: reset semantics and implicit initialization -/

theorem deUpdateBest_frame (s : DEState) :
    (deUpdateBest s).generation = s.generation ∧ (deUpdateBest s).stats = s.stats := by
  unfold deUpdateBest
  cases s.best <;> dsimp only
  · exact ⟨rfl, rfl⟩
  · split_ifs <;> exact ⟨rfl, rfl⟩

theorem deInitPopLoop_length (p : ProblemDef) :
    ∀ (n : ℕ) (r : Rng), (deInitPopLoop p n r).1.length = n := by
  intro n
  induction n with
  | zero => intro r; rfl
  | succ m ih => intro r; simp [deInitPopLoop, ih]

theorem deInitializePopulation_shape (env : Env) (p : ProblemDef) (s : DEState) :
    (deInitializePopulation env p s).population.length = s.params.populationSize ∧
    (deInitializePopulation env p s).generation = s.generation ∧
    (deInitializePopulation env p s).stats.history.bestFitness.length =
      s.stats.history.bestFitness.length + 1 := by
  unfold deInitializePopulation
  refine ⟨?_, ?_, ?_⟩
  · rw [deUpdateStats_population, deUpdateBest_population]
    exact deInitPopLoop_length p s.params.populationSize s.rng
  · show (deUpdateBest _).generation = s.generation
    rw [(deUpdateBest_frame _).1]
  · show ((deUpdateBest _).stats.history.bestFitness ++ _).length = _
    rw [(deUpdateBest_frame _).2]
    simp

theorem esInitializePopulation_hist (env : Env) (p : ProblemDef) (s : ESState)
    (hb : s.best = none) :
    (esInitializePopulation env p s).stats.history.bestFitness =
      s.stats.history.bestFitness ++ [0] ∧
    (esInitializePopulation env p s).generation = s.generation ∧
    (esInitializePopulation env p s).best = none := by
  unfold esInitializePopulation esUpdateStats
  dsimp only
  rw [hb]
  exact ⟨rfl, rfl, rfl⟩

theorem psoInitPopLoop_length (p : ProblemDef) (maxVel : ℚ) :
    ∀ (n : ℕ) (r : Rng), (psoInitPopLoop p maxVel n r).1.length = n := by
  intro n
  induction n with
  | zero => intro r; rfl
  | succ m ih => intro r; simp [psoInitPopLoop, ih]

theorem psoUpdateGlobalBest_frame (s : PSOState) :
    (psoUpdateGlobalBest s).particles = s.particles ∧
    (psoUpdateGlobalBest s).iteration = s.iteration ∧
    (psoUpdateGlobalBest s).stats = s.stats := by
  unfold psoUpdateGlobalBest
  cases s.globalBest <;> dsimp only
  · exact ⟨rfl, rfl, rfl⟩
  · split_ifs <;> exact ⟨rfl, rfl, rfl⟩

theorem psoInitializePopulation_shape (env : Env) (p : ProblemDef) (s : PSOState) :
    (psoInitializePopulation env p s).particles.length = s.params.populationSize ∧
    (psoInitializePopulation env p s).iteration = s.iteration ∧
    (psoInitializePopulation env p s).stats.history.bestFitness.length =
      s.stats.history.bestFitness.length + 1 := by
  unfold psoInitializePopulation
  refine ⟨?_, ?_, ?_⟩
  · show (psoUpdateGlobalBest _).particles.length = _
    rw [(psoUpdateGlobalBest_frame _).1]
    dsimp only [psoSetupTopology]
    rw [List.length_mapIdx]
    exact psoInitPopLoop_length p s.params.maxVelocity s.params.populationSize s.rng
  · show (psoUpdateGlobalBest _).iteration = s.iteration
    rw [(psoUpdateGlobalBest_frame _).2.1]
  · show ((psoUpdateGlobalBest _).stats.history.bestFitness ++ _).length = _
    rw [(psoUpdateGlobalBest_frame _).2.2]
    simp

/-- Claim C7, amended: `reset()` clears population, best, generation
counter and stats history for every algorithm, and GA, SA and ABC are then
left Uninitialized-but-configured; but DE, ES and PSO end their `reset()`
by calling `initializePopulation()`, so after their reset the population is
already re-created (size `populationSize`, `populationSize` and `mu`
respectively) and one stats record is already appended.  For every
algorithm, a `step()` in the Uninitialized state (empty population for
GA/DE/ES/PSO/ABC, no current solution for SA) implicitly initializes
instead of performing a search iteration. -/
theorem reset_and_implicit_initialization :
    (∀ s : GAState, (gaReset s).population = [] ∧ (gaReset s).best = none ∧
      (gaReset s).generation = 0 ∧ (gaReset s).stats = emptyStats) ∧
    (∀ s : SAState, (saReset s).population = [] ∧ (saReset s).current = none ∧
      (saReset s).best = none ∧ (saReset s).iteration = 0 ∧ (saReset s).stats = emptyStats) ∧
    (∀ s : ABCState, (abcReset s).population = [] ∧ (abcReset s).trials = [] ∧
      (abcReset s).best = none ∧ (abcReset s).generation = 0 ∧
      (abcReset s).stats = emptyStats) ∧
    (∀ (env : Env) (p : ProblemDef) (s : DEState),
      (deReset env p s).population.length = s.params.populationSize ∧
      (deReset env p s).generation = 0 ∧
      (deReset env p s).stats.history.bestFitness.length = 1) ∧
    (∀ (env : Env) (p : ProblemDef) (s : ESState),
      (esReset env p s).population.length = s.params.mu ∧
      (esReset env p s).generation = 0 ∧
      (esReset env p s).stats.history.bestFitness = [0]) ∧
    (∀ (env : Env) (p : ProblemDef) (s : PSOState),
      (psoReset env p s).particles.length = s.params.populationSize ∧
      (psoReset env p s).iteration = 0 ∧
      (psoReset env p s).stats.history.bestFitness.length = 1) ∧
    (∀ (env : Env) (p : ProblemDef) (s : GAState), s.population.length = 0 →
      gaStep env p s = gaInitializePopulation env p s) ∧
    (∀ (env : Env) (p : ProblemDef) (s : SAState), s.current = none →
      saStep env p s = saInitializePopulation p s) ∧
    (∀ (env : Env) (p : ProblemDef) (s : DEState), s.population.length = 0 →
      deStep env p s = deInitializePopulation env p s) ∧
    (∀ (env : Env) (p : ProblemDef) (fuel : ℕ) (s : ESState), s.population.length = 0 →
      esStep env p fuel s = some (esInitializePopulation env p s)) ∧
    (∀ (env : Env) (p : ProblemDef) (s : PSOState), s.particles.length = 0 →
      psoStep env p s = psoInitializePopulation env p s) ∧
    (∀ (env : Env) (p : ProblemDef) (loopFuel nFuel : ℕ) (s : ABCState),
      s.population.length = 0 →
      abcStep env p loopFuel nFuel s = some (abcInitializePopulation env p s)) := by
  refine ⟨fun s => ⟨rfl, rfl, rfl, rfl⟩,
    fun s => ⟨rfl, rfl, rfl, rfl, rfl⟩,
    fun s => ⟨rfl, rfl, rfl, rfl, rfl⟩, ?_, ?_, ?_, ?_, ?_, ?_, ?_, ?_, ?_⟩
  · intro env p s
    have h := deInitializePopulation_shape env p
      { s with population := [], best := none, generation := 0, stats := emptyStats }
    exact ⟨h.1, h.2.1, h.2.2⟩
  · intro env p s
    have h := esInitializePopulation_hist env p
      { s with population := [], best := none, generation := 0, stats := emptyStats } rfl
    refine ⟨?_, h.2.1, h.1⟩
    show (esInitializePopulation env p _).population.length = _
    rw [esInitializePopulation, esUpdateStats_population]
    exact esInitPopLoop_length p _ _
  · intro env p s
    have h := psoInitializePopulation_shape env p
      { s with particles := [], globalBest := none, iteration := 0, stats := emptyStats }
    exact ⟨h.1, h.2.1, h.2.2⟩
  · intro env p s h
    rw [gaStep, if_pos h]
  · intro env p s h
    rw [saStep, h]
  · intro env p s h
    rw [deStep, if_pos h]
  · intro env p fuel s h
    rw [esStep, if_pos h]
  · intro env p s h
    rw [psoStep, if_pos h]
  · intro env p loopFuel nFuel s h
    rw [abcStep, if_pos h]

/-- Counterexample to C7 as stated: after `reset()` a Differential
Evolution instance (`populationSize = 2`) does NOT have an empty population
and an empty stats history — its `reset()` ends with
`initializePopulation()`, leaving 2 individuals and one history record. -/
theorem de_reset_not_uninitialized_counterexample :
    (deReset zeroEnv (sphereProblem 1)
        ⟨{ deDefaultParams with populationSize := 2 }, [], none, 0, emptyStats,
          listRng [] (1/2)⟩).population.length = 2 ∧
    (deReset zeroEnv (sphereProblem 1)
        ⟨{ deDefaultParams with populationSize := 2 }, [], none, 0, emptyStats,
          listRng [] (1/2)⟩).stats.history.bestFitness.length = 1 := by
  have h := (reset_and_implicit_initialization).2.2.2.1 zeroEnv (sphereProblem 1)
    ⟨{ deDefaultParams with populationSize := 2 }, [], none, 0, emptyStats, listRng [] (1/2)⟩
  exact ⟨h.1, h.2.2⟩

/-- Witness for C7's amended theorem at concrete inputs: a GA reset leaves
an empty population, a DE reset leaves a re-initialized one, and a GA
`step()` on an empty population equals `initializePopulation()`. -/
theorem reset_and_implicit_initialization_witness :
    (gaReset ⟨gaDefaultParams, [⟨[1], 1⟩], some ⟨[1], 1⟩, 3, emptyStats,
        listRng [] (1/2)⟩).population = [] ∧
    (deReset zeroEnv (sphereProblem 1)
        ⟨{ deDefaultParams with populationSize := 2 }, [], none, 0, emptyStats,
          listRng [] (1/2)⟩).population.length = 2 ∧
    ((⟨gaDefaultParams, [], none, 0, emptyStats, listRng [] (1/2)⟩ : GAState).population.length
        = 0 ∧
      gaStep zeroEnv (sphereProblem 1)
          ⟨gaDefaultParams, [], none, 0, emptyStats, listRng [] (1/2)⟩ =
        gaInitializePopulation zeroEnv (sphereProblem 1)
          ⟨gaDefaultParams, [], none, 0, emptyStats, listRng [] (1/2)⟩) := by
  refine ⟨(reset_and_implicit_initialization.1 _).1, ?_, by decide,
    reset_and_implicit_initialization.2.2.2.2.2.2.1 zeroEnv (sphereProblem 1) _ (by decide)⟩
  exact ((reset_and_implicit_initialization).2.2.2.1 zeroEnv (sphereProblem 1) _).1

/-! ## Claim C8: setParams never re-initializes -/

/-- Claim C8, amended: no algorithm's `setParams` triggers a population
re-initialization — not even for the population-altering parameters
(`populationSize`, ES's `mu`): every `setParams` only merges the parameter
object (SA additionally resets the temperature to the merged
`initialTemperature`), and the population/particles, best, generation
counter and stats history are left unchanged in all six algorithms; the
changed parameters only affect subsequent steps. -/
theorem set_params_frame :
    (∀ (s : GAState) (patch : GAParamsPatch),
      (gaSetParams s patch).params = s.params.merge patch ∧
      (gaSetParams s patch).population = s.population ∧
      (gaSetParams s patch).best = s.best ∧
      (gaSetParams s patch).generation = s.generation ∧
      (gaSetParams s patch).stats = s.stats) ∧
    (∀ (s : ESState) (patch : ESParamsPatch),
      (esSetParams s patch).params = s.params.merge patch ∧
      (esSetParams s patch).population = s.population ∧
      (esSetParams s patch).best = s.best ∧
      (esSetParams s patch).generation = s.generation ∧
      (esSetParams s patch).stats = s.stats) ∧
    (∀ (s : DEState) (patch : DEParamsPatch),
      (deSetParams s patch).params = s.params.merge patch ∧
      (deSetParams s patch).population = s.population ∧
      (deSetParams s patch).best = s.best ∧
      (deSetParams s patch).generation = s.generation ∧
      (deSetParams s patch).stats = s.stats) ∧
    (∀ (s : PSOState) (patch : PSOParamsPatch),
      (psoSetParams s patch).params = s.params.merge patch ∧
      (psoSetParams s patch).particles = s.particles ∧
      (psoSetParams s patch).globalBest = s.globalBest ∧
      (psoSetParams s patch).iteration = s.iteration ∧
      (psoSetParams s patch).stats = s.stats) ∧
    (∀ (s : ABCState) (patch : ABCParamsPatch),
      (abcSetParams s patch).params = s.params.merge patch ∧
      (abcSetParams s patch).population = s.population ∧
      (abcSetParams s patch).trials = s.trials ∧
      (abcSetParams s patch).best = s.best ∧
      (abcSetParams s patch).generation = s.generation ∧
      (abcSetParams s patch).stats = s.stats) ∧
    (∀ (s : SAState) (patch : SAParamsPatch),
      (saSetParams s patch).params = s.params.merge patch ∧
      (saSetParams s patch).temperature = (s.params.merge patch).initialTemperature ∧
      (saSetParams s patch).population = s.population ∧
      (saSetParams s patch).current = s.current ∧
      (saSetParams s patch).best = s.best ∧
      (saSetParams s patch).iteration = s.iteration ∧
      (saSetParams s patch).stats = s.stats) :=
  ⟨fun _ _ => ⟨rfl, rfl, rfl, rfl, rfl⟩,
    fun _ _ => ⟨rfl, rfl, rfl, rfl, rfl⟩,
    fun _ _ => ⟨rfl, rfl, rfl, rfl, rfl⟩,
    fun _ _ => ⟨rfl, rfl, rfl, rfl, rfl⟩,
    fun _ _ => ⟨rfl, rfl, rfl, rfl, rfl, rfl⟩,
    fun _ _ => ⟨rfl, rfl, rfl, rfl, rfl, rfl, rfl⟩⟩

/-- Counterexample to C8 as stated: changing `populationSize` from 2 to 5
via DE's `setParams` does NOT re-initialize the population — it still holds
the same 2 individuals. -/
theorem de_set_params_no_reinit_counterexample :
    (deSetParams
        ⟨{ deDefaultParams with populationSize := 2 },
          [⟨[1], -1⟩, ⟨[2], -4⟩], some ⟨[1], -1⟩, 3, emptyStats, listRng [] (1/2)⟩
        { populationSize := some 5 }).params.populationSize = 5 ∧
    (deSetParams
        ⟨{ deDefaultParams with populationSize := 2 },
          [⟨[1], -1⟩, ⟨[2], -4⟩], some ⟨[1], -1⟩, 3, emptyStats, listRng [] (1/2)⟩
        { populationSize := some 5 }).population =
      [⟨[1], -1⟩, ⟨[2], -4⟩] := by
  exact ⟨rfl, rfl⟩

/-- The shared shape `l.foldl ((best, cur) => fit cur > fit best ? cur :
best) init`: the result's measure dominates the seed and every element. -/
theorem foldl_best_ge {α : Type} (fit : α → ℚ) :
    ∀ (l : List α) (init : α),
      fit init ≤
        fit (l.foldl (fun best current => if fit current > fit best then current else best) init) ∧
      ∀ x ∈ l,
        fit x ≤
          fit (l.foldl (fun best current => if fit current > fit best then current else best) init) := by
  intro l
  induction l with
  | nil => intro init; exact ⟨le_refl _, by simp⟩
  | cons y ys ih =>
      intro init
      simp only [List.foldl_cons]
      have hnext : fit init ≤ fit (if fit y > fit init then y else init) ∧
          fit y ≤ fit (if fit y > fit init then y else init) := by
        split_ifs with h
        · exact ⟨le_of_lt h, le_refl _⟩
        · exact ⟨le_refl _, le_of_not_lt h⟩
      have hrec := ih (if fit y > fit init then y else init)
      refine ⟨le_trans hnext.1 hrec.1, ?_⟩
      intro x hx
      rcases List.mem_cons.mp hx with hxy | hxys
      · subst hxy; exact le_trans hnext.2 hrec.1
      · exact hrec.2 x hxys

/-- Generic run-level argument: if one step of an algorithm preserves an
invariant, appends exactly the new best to the recorded history, never
makes the best worse, and bounds every population fitness by the new best,
then along every run from an initialized state the recorded best-fitness
history is monotone (in the `R` ordering), ends at the current best, and
the current best dominates every history entry and every population
member. -/
theorem hist_mono_iterate {σ : Type} (stepF : σ → σ) (hist : σ → List ℚ) (bestF : σ → ℚ)
    (popFits : σ → List ℚ) (R : ℚ → ℚ → Prop) (Inv : σ → Prop)
    (hrefl : ∀ a, R a a) (htrans : ∀ a b c, R a b → R b c → R a c)
    (hstep : ∀ s, Inv s →
      Inv (stepF s) ∧
      hist (stepF s) = hist s ++ [bestF (stepF s)] ∧
      R (bestF s) (bestF (stepF s)) ∧
      (∀ x ∈ popFits (stepF s), R x (bestF (stepF s))))
    (s0 : σ)
    (h0 : Inv s0 ∧ hist s0 = [bestF s0] ∧ (∀ x ∈ popFits s0, R x (bestF s0))) :
    ∀ k, Inv (stepF^[k] s0) ∧
      List.Chain' R (hist (stepF^[k] s0)) ∧
      (hist (stepF^[k] s0)).getLast? = some (bestF (stepF^[k] s0)) ∧
      (∀ x ∈ hist (stepF^[k] s0), R x (bestF (stepF^[k] s0))) ∧
      (∀ x ∈ popFits (stepF^[k] s0), R x (bestF (stepF^[k] s0))) := by
  intro k
  induction k with
  | zero =>
      refine ⟨h0.1, ?_, ?_, ?_, h0.2.2⟩
      · simp [h0.2.1]
      · simp [h0.2.1]
      · intro x hx
        simp only [Function.iterate_zero_apply] at hx ⊢
        rw [h0.2.1] at hx
        rcases List.mem_singleton.mp hx with rfl
        exact hrefl _
  | succ n ih =>
      rw [Function.iterate_succ_apply']
      obtain ⟨hInv, hchain, hlast, hall, _⟩ := ih
      obtain ⟨hInv2, happ, hR, hpf2⟩ := hstep _ hInv
      refine ⟨hInv2, ?_, ?_, ?_, hpf2⟩
      · rw [happ]
        apply List.Chain'.append hchain (List.chain'_singleton _)
        intro x hx y hy
        rw [hlast] at hx
        rcases Option.mem_some_iff.mp hx with rfl
        rcases Option.mem_some_iff.mp (by simpa using hy) with rfl
        exact hR
      · rw [happ, List.getLast?_concat]
      · rw [happ]
        intro x hx
        rcases List.mem_append.mp hx with hx1 | hx2
        · exact htrans _ _ _ (hall x hx1) hR
        · rcases List.mem_singleton.mp hx2 with rfl
          exact hrefl _

theorem reduceBest_ge (pop : List Individual) :
    ∀ x ∈ pop, x.fitness ≤ (reduceBest pop).fitness := by
  intro x hx
  exact (foldl_best_ge (fun i => i.fitness) pop (pop.headD default)).2 x hx

theorem deUpdateBest_spec (s : DEState) (b : Individual) (hb : s.best = some b) :
    ∃ b2, (deUpdateBest s).best = some b2 ∧ b.fitness ≤ b2.fitness ∧
      (reduceBest s.population).fitness ≤ b2.fitness := by
  unfold deUpdateBest
  rw [hb]
  dsimp only
  split_ifs with hgt
  · exact ⟨reduceBest s.population, rfl, le_of_lt hgt, le_refl _⟩
  · exact ⟨b, hb, le_refl _, le_of_not_lt hgt⟩

theorem deUpdateBest_none (s : DEState) (hb : s.best = none) :
    (deUpdateBest s).best = some (reduceBest s.population) := by
  unfold deUpdateBest
  rw [hb]

theorem deUpdateStats_spec (env : Env) (t : DEState) (b2 : Individual) (hb : t.best = some b2) :
    (deUpdateStats env t).best = some b2 ∧
    (deUpdateStats env t).stats.history.bestFitness =
      t.stats.history.bestFitness ++ [b2.fitness] := by
  constructor
  · show t.best = some b2
    exact hb
  · show t.stats.history.bestFitness ++
      [match t.best with | some b => b.fitness | none => 0] = _
    rw [hb]

theorem deStep_monotone (env : Env) (p : ProblemDef) (s : DEState)
    (h : s.best.isSome ∧ s.population ≠ []) :
    ((deStep env p s).best.isSome ∧ (deStep env p s).population ≠ []) ∧
    (deStep env p s).stats.history.bestFitness =
      s.stats.history.bestFitness ++ [((deStep env p s).best.getD default).fitness] ∧
    (s.best.getD default).fitness ≤ ((deStep env p s).best.getD default).fitness ∧
    (∀ x ∈ (deStep env p s).population.map (fun ind => ind.fitness),
      x ≤ ((deStep env p s).best.getD default).fitness) := by
  obtain ⟨hbs, hpop⟩ := h
  obtain ⟨b, hb⟩ := Option.isSome_iff_exists.mp hbs
  have hlen : ¬ s.population.length = 0 := by
    simpa [List.length_eq_zero] using hpop
  have hstep : deStep env p s =
      { (deUpdateStats env (deUpdateBest
          { s with population := (deSelectLoop p s s.population 0 s.rng).1,
                   rng := (deSelectLoop p s s.population 0 s.rng).2 })) with
        generation := (deUpdateStats env (deUpdateBest
          { s with population := (deSelectLoop p s s.population 0 s.rng).1,
                   rng := (deSelectLoop p s s.population 0 s.rng).2 })).generation + 1 } := by
    rw [deStep, if_neg hlen]
  set s1 : DEState :=
    { s with population := (deSelectLoop p s s.population 0 s.rng).1,
             rng := (deSelectLoop p s s.population 0 s.rng).2 } with hs1
  have hs1pop : s1.population ≠ [] := by
    have : s1.population.length = s.population.length := deSelectLoop_length p s _ 0 s.rng
    intro hnil
    rw [hnil] at this
    exact hpop (List.length_eq_zero.mp this.symm)
  have hs1best : s1.best = some b := hb
  obtain ⟨b2, hb2, hble, hrble⟩ := deUpdateBest_spec s1 b hs1best
  have hstats := deUpdateStats_spec env (deUpdateBest s1) b2 hb2
  have hbestFinal : (deStep env p s).best = some b2 := by
    rw [hstep]
    show (deUpdateStats env (deUpdateBest s1)).best = some b2
    exact hstats.1
  have hpopFinal : (deStep env p s).population = s1.population := by
    rw [hstep]
    show (deUpdateStats env (deUpdateBest s1)).population = s1.population
    rw [deUpdateStats_population, deUpdateBest_population]
  refine ⟨⟨by rw [hbestFinal]; rfl, by rw [hpopFinal]; exact hs1pop⟩, ?_, ?_, ?_⟩
  · rw [hbestFinal]
    show (deStep env p s).stats.history.bestFitness = _ ++ [b2.fitness]
    rw [hstep]
    show (deUpdateStats env (deUpdateBest s1)).stats.history.bestFitness = _
    rw [hstats.2, (deUpdateBest_frame s1).2]
  · rw [hbestFinal, hb]
    exact hble
  · intro x hx
    rw [hbestFinal]
    rw [hpopFinal] at hx
    obtain ⟨ind, hind, rfl⟩ := List.mem_map.mp hx
    exact le_trans (le_trans (reduceBest_ge s1.population ind hind) hrble) (le_refl _)

theorem deInitializePopulation_good (env : Env) (p : ProblemDef) (s : DEState)
    (hps : 1 ≤ s.params.populationSize) (hb : s.best = none) (hstats : s.stats = emptyStats) :
    ((deInitializePopulation env p s).best.isSome ∧
      (deInitializePopulation env p s).population ≠ []) ∧
    (deInitializePopulation env p s).stats.history.bestFitness =
      [((deInitializePopulation env p s).best.getD default).fitness] ∧
    (∀ x ∈ (deInitializePopulation env p s).population.map (fun ind => ind.fitness),
      x ≤ ((deInitializePopulation env p s).best.getD default).fitness) := by
  set t : DEState :=
    { s with population := (deInitPopLoop p s.params.populationSize s.rng).1,
             rng := (deInitPopLoop p s.params.populationSize s.rng).2 } with ht
  have hinit : deInitializePopulation env p s = deUpdateStats env (deUpdateBest t) := rfl
  have hub := deUpdateBest_none t (show t.best = none from hb)
  have hstats2 := deUpdateStats_spec env (deUpdateBest t) (reduceBest t.population) hub
  have htpop : t.population ≠ [] := by
    have hlen : t.population.length = s.params.populationSize :=
      deInitPopLoop_length p s.params.populationSize s.rng
    intro hnil
    rw [hnil] at hlen
    simp at hlen
    omega
  have hbestFinal : (deInitializePopulation env p s).best = some (reduceBest t.population) := by
    rw [hinit]; exact hstats2.1
  have hpopFinal : (deInitializePopulation env p s).population = t.population := by
    rw [hinit, deUpdateStats_population, deUpdateBest_population]
  refine ⟨⟨by rw [hbestFinal]; rfl, by rw [hpopFinal]; exact htpop⟩, ?_, ?_⟩
  · rw [hbestFinal, hinit]
    show (deUpdateStats env (deUpdateBest t)).stats.history.bestFitness = _
    rw [hstats2.2, (deUpdateBest_frame t).2]
    show (s.stats.history.bestFitness ++ _) = _
    rw [hstats]
    rfl
  · intro x hx
    rw [hbestFinal]
    rw [hpopFinal] at hx
    obtain ⟨ind, hind, rfl⟩ := List.mem_map.mp hx
    exact reduceBest_ge t.population ind hind

theorem gaFindBest_ge (pop : List Individual) :
    ∀ x ∈ pop, x.fitness ≤ (gaFindBest pop).fitness := by
  intro x hx
  exact (foldl_best_ge (fun i => i.fitness) pop (pop.headD default)).2 x hx

theorem gaUpdateStats_spec (env : Env) (s : GAState) :
    ∃ b2, (gaUpdateStats env s).best = some b2 ∧
      (gaUpdateStats env s).stats.history.bestFitness =
        s.stats.history.bestFitness ++ [b2.fitness] ∧
      (gaUpdateStats env s).population = s.population ∧
      (gaUpdateStats env s).generation = s.generation ∧
      (∀ x ∈ s.population, x.fitness ≤ b2.fitness) ∧
      (∀ b, s.best = some b → b.fitness ≤ b2.fitness) := by
  unfold gaUpdateStats
  cases hb : s.best with
  | none =>
      refine ⟨gaFindBest s.population, rfl, rfl, rfl, rfl, gaFindBest_ge s.population, ?_⟩
      intro b hbb
      exact Option.noConfusion hbb
  | some b =>
      dsimp only
      split_ifs with hgt
      · refine ⟨gaFindBest s.population, rfl, rfl, rfl, rfl, gaFindBest_ge s.population, ?_⟩
        intro b0 hb0
        rcases Option.some_inj.mp hb0 with rfl
        exact le_of_lt hgt
      · refine ⟨b, rfl, rfl, rfl, rfl, ?_, ?_⟩
        · intro x hx
          exact le_trans (gaFindBest_ge s.population x hx) (le_of_not_lt hgt)
        · intro b0 hb0
          rcases Option.some_inj.mp hb0 with rfl
          exact le_refl _

theorem gaStep_monotone (env : Env) (p : ProblemDef) (s : GAState)
    (h : s.best.isSome ∧ s.population ≠ []) :
    ((gaStep env p s).best.isSome ∧ (gaStep env p s).population ≠ []) ∧
    (gaStep env p s).stats.history.bestFitness =
      s.stats.history.bestFitness ++ [((gaStep env p s).best.getD default).fitness] ∧
    (s.best.getD default).fitness ≤ ((gaStep env p s).best.getD default).fitness ∧
    (∀ x ∈ (gaStep env p s).population.map (fun ind => ind.fitness),
      x ≤ ((gaStep env p s).best.getD default).fitness) := by
  obtain ⟨hbs, hpop⟩ := h
  obtain ⟨b, hb⟩ := Option.isSome_iff_exists.mp hbs
  have hlen : ¬ s.population.length = 0 := by
    simpa [List.length_eq_zero] using hpop
  have hstep : gaStep env p s =
      gaUpdateStats env
        { s with population := [b] ++ (gaOffspringLoop env p s
            (s.params.populationSize - 1) s.rng).1,
                 rng := (gaOffspringLoop env p s (s.params.populationSize - 1) s.rng).2,
                 generation := s.generation + 1 } := by
    rw [gaStep, if_neg hlen, hb]
    rfl
  set s1 : GAState :=
    { s with population := [b] ++ (gaOffspringLoop env p s
        (s.params.populationSize - 1) s.rng).1,
             rng := (gaOffspringLoop env p s (s.params.populationSize - 1) s.rng).2,
             generation := s.generation + 1 } with hs1
  obtain ⟨b2, hb2, hhist, hpop2, _, hmax, hbb⟩ := gaUpdateStats_spec env s1
  have hbestFinal : (gaStep env p s).best = some b2 := by rw [hstep]; exact hb2
  have hpopFinal : (gaStep env p s).population = s1.population := by rw [hstep]; exact hpop2
  have hble : b.fitness ≤ b2.fitness := hbb b hb
  refine ⟨⟨by rw [hbestFinal]; rfl, by rw [hpopFinal]; exact (by simp : s1.population ≠ [])⟩,
    ?_, ?_, ?_⟩
  · rw [hbestFinal, hstep, hhist]
    rfl
  · rw [hbestFinal, hb]
    exact hble
  · intro x hx
    rw [hbestFinal]
    rw [hpopFinal] at hx
    obtain ⟨ind, hind, rfl⟩ := List.mem_map.mp hx
    exact hmax ind hind

theorem gaInitPopLoop_length (p : ProblemDef) :
    ∀ (n : ℕ) (r : Rng), (gaInitPopLoop p n r).1.length = n := by
  intro n
  induction n with
  | zero => intro r; rfl
  | succ m ih => intro r; simp [gaInitPopLoop, ih]

theorem gaInitializePopulation_good (env : Env) (p : ProblemDef) (s : GAState)
    (hps : 1 ≤ s.params.populationSize) (hb : s.best = none) (hstats : s.stats = emptyStats) :
    ((gaInitializePopulation env p s).best.isSome ∧
      (gaInitializePopulation env p s).population ≠ []) ∧
    (gaInitializePopulation env p s).stats.history.bestFitness =
      [((gaInitializePopulation env p s).best.getD default).fitness] ∧
    (∀ x ∈ (gaInitializePopulation env p s).population.map (fun ind => ind.fitness),
      x ≤ ((gaInitializePopulation env p s).best.getD default).fitness) := by
  set t : GAState :=
    { s with population := (gaInitPopLoop p s.params.populationSize s.rng).1,
             rng := (gaInitPopLoop p s.params.populationSize s.rng).2 } with ht
  have hinit : gaInitializePopulation env p s = gaUpdateStats env t := rfl
  obtain ⟨b2, hb2, hhist, hpop2, _, hmax, _⟩ := gaUpdateStats_spec env t
  have htpop : t.population ≠ [] := by
    have hlen : t.population.length = s.params.populationSize :=
      gaInitPopLoop_length p s.params.populationSize s.rng
    intro hnil
    rw [hnil] at hlen
    simp at hlen
    omega
  have hbestFinal : (gaInitializePopulation env p s).best = some b2 := by
    rw [hinit]; exact hb2
  have hpopFinal : (gaInitializePopulation env p s).population = t.population := by
    rw [hinit]; exact hpop2
  refine ⟨⟨by rw [hbestFinal]; rfl, by rw [hpopFinal]; exact htpop⟩, ?_, ?_⟩
  · rw [hbestFinal, hinit, hhist]
    show t.stats.history.bestFitness ++ _ = _
    rw [show t.stats = s.stats from rfl, hstats]
    rfl
  · intro x hx
    rw [hbestFinal]
    rw [hpopFinal] at hx
    obtain ⟨ind, hind, rfl⟩ := List.mem_map.mp hx
    exact hmax ind hind

theorem psoStepGo_length (p : ProblemDef) (params : PSOParams) (gb : Option Individual) :
    ∀ (k i : ℕ) (particles : List Particle) (r : Rng),
      (psoStepGo p params gb k i particles r).1.length = particles.length := by
  intro k
  induction k with
  | zero => intro i particles r; rfl
  | succ n ih =>
      intro i particles r
      rw [psoStepGo]
      dsimp only
      split_ifs <;> rw [ih] <;> exact List.length_set _ _ _

theorem psoUpdateGlobalBest_spec (s : PSOState) (gb : Individual)
    (hgb : s.globalBest = some gb) :
    ∃ g2, (psoUpdateGlobalBest s).globalBest = some g2 ∧ gb.fitness ≤ g2.fitness ∧
      ∀ q ∈ s.particles, q.fitness ≤ g2.fitness := by
  unfold psoUpdateGlobalBest
  rw [hgb]
  dsimp only
  split_ifs with hgt
  · refine ⟨_, rfl, le_of_lt hgt, ?_⟩
    intro q hq
    exact (foldl_best_ge (fun q => q.fitness) s.particles (s.particles.headD default)).2 q hq
  · refine ⟨gb, hgb, le_refl _, ?_⟩
    intro q hq
    exact le_trans
      ((foldl_best_ge (fun q => q.fitness) s.particles (s.particles.headD default)).2 q hq)
      (le_of_not_lt hgt)

theorem psoUpdateGlobalBest_none (s : PSOState) (hgb : s.globalBest = none) :
    ∃ g2, (psoUpdateGlobalBest s).globalBest = some g2 ∧
      ∀ q ∈ s.particles, q.fitness ≤ g2.fitness := by
  unfold psoUpdateGlobalBest
  rw [hgb]
  dsimp only
  refine ⟨_, rfl, ?_⟩
  intro q hq
  exact (foldl_best_ge (fun q => q.fitness) s.particles (s.particles.headD default)).2 q hq

theorem psoUpdateStats_spec (env : Env) (t : PSOState) (g2 : Individual)
    (hg : t.globalBest = some g2) :
    (psoUpdateStats env t).globalBest = some g2 ∧
    (psoUpdateStats env t).stats.history.bestFitness =
      t.stats.history.bestFitness ++ [g2.fitness] ∧
    (psoUpdateStats env t).particles = t.particles := by
  refine ⟨hg, ?_, rfl⟩
  show t.stats.history.bestFitness ++
    [match t.globalBest with | some b => b.fitness | none => 0] = _
  rw [hg]

theorem psoStep_monotone (env : Env) (p : ProblemDef) (s : PSOState)
    (h : s.globalBest.isSome ∧ s.particles ≠ []) :
    ((psoStep env p s).globalBest.isSome ∧ (psoStep env p s).particles ≠ []) ∧
    (psoStep env p s).stats.history.bestFitness =
      s.stats.history.bestFitness ++ [((psoStep env p s).globalBest.getD default).fitness] ∧
    (s.globalBest.getD default).fitness ≤
      ((psoStep env p s).globalBest.getD default).fitness ∧
    (∀ x ∈ (psoStep env p s).particles.map (fun q => q.fitness),
      x ≤ ((psoStep env p s).globalBest.getD default).fitness) := by
  obtain ⟨hbs, hpop⟩ := h
  obtain ⟨gb, hgb⟩ := Option.isSome_iff_exists.mp hbs
  have hlen : ¬ s.particles.length = 0 := by
    simpa [List.length_eq_zero] using hpop
  have hstep : psoStep env p s =
      { (psoUpdateStats env (psoUpdateGlobalBest
          { s with particles := (psoStepGo p s.params s.globalBest
              s.particles.length 0 s.particles s.rng).1,
                   rng := (psoStepGo p s.params s.globalBest
              s.particles.length 0 s.particles s.rng).2 })) with
        iteration := (psoUpdateStats env (psoUpdateGlobalBest
          { s with particles := (psoStepGo p s.params s.globalBest
              s.particles.length 0 s.particles s.rng).1,
                   rng := (psoStepGo p s.params s.globalBest
              s.particles.length 0 s.particles s.rng).2 })).iteration + 1 } := by
    rw [psoStep, if_neg hlen]
  set s1 : PSOState :=
    { s with particles := (psoStepGo p s.params s.globalBest
        s.particles.length 0 s.particles s.rng).1,
             rng := (psoStepGo p s.params s.globalBest
        s.particles.length 0 s.particles s.rng).2 } with hs1
  have hs1pop : s1.particles ≠ [] := by
    have hl : s1.particles.length = s.particles.length :=
      psoStepGo_length p s.params s.globalBest s.particles.length 0 s.particles s.rng
    intro hnil
    rw [hnil] at hl
    simp at hl
    omega
  obtain ⟨g2, hg2, hgle, hqle⟩ := psoUpdateGlobalBest_spec s1 gb hgb
  have hstats := psoUpdateStats_spec env (psoUpdateGlobalBest s1) g2 hg2
  have hbestFinal : (psoStep env p s).globalBest = some g2 := by
    rw [hstep]
    exact hstats.1
  have hpopFinal : (psoStep env p s).particles = s1.particles := by
    rw [hstep]
    show (psoUpdateStats env (psoUpdateGlobalBest s1)).particles = s1.particles
    rw [hstats.2.2, (psoUpdateGlobalBest_frame s1).1]
  refine ⟨⟨by rw [hbestFinal]; rfl, by rw [hpopFinal]; exact hs1pop⟩, ?_, ?_, ?_⟩
  · rw [hbestFinal]
    show (psoStep env p s).stats.history.bestFitness = _ ++ [g2.fitness]
    rw [hstep]
    show (psoUpdateStats env (psoUpdateGlobalBest s1)).stats.history.bestFitness = _
    rw [hstats.2.1, (psoUpdateGlobalBest_frame s1).2.2]
  · rw [hbestFinal, hgb]
    exact hgle
  · intro x hx
    rw [hbestFinal]
    rw [hpopFinal] at hx
    obtain ⟨q, hq, rfl⟩ := List.mem_map.mp hx
    exact hqle q hq

theorem psoInitializePopulation_good (env : Env) (p : ProblemDef) (s : PSOState)
    (hps : 1 ≤ s.params.populationSize) (hb : s.globalBest = none)
    (hstats : s.stats = emptyStats) :
    ((psoInitializePopulation env p s).globalBest.isSome ∧
      (psoInitializePopulation env p s).particles ≠ []) ∧
    (psoInitializePopulation env p s).stats.history.bestFitness =
      [((psoInitializePopulation env p s).globalBest.getD default).fitness] ∧
    (∀ x ∈ (psoInitializePopulation env p s).particles.map (fun q => q.fitness),
      x ≤ ((psoInitializePopulation env p s).globalBest.getD default).fitness) := by
  set pr := psoInitPopLoop p s.params.maxVelocity s.params.populationSize s.rng with hpr
  set t : PSOState :=
    { s with particles := psoSetupTopology s.params pr.1, rng := pr.2 } with ht
  have hinit : psoInitializePopulation env p s =
      psoUpdateStats env (psoUpdateGlobalBest t) := rfl
  obtain ⟨g2, hg2, hqle⟩ := psoUpdateGlobalBest_none t (show t.globalBest = none from hb)
  have hstats2 := psoUpdateStats_spec env (psoUpdateGlobalBest t) g2 hg2
  have htpop : t.particles ≠ [] := by
    have hl : t.particles.length = s.params.populationSize := by
      show (psoSetupTopology _ _).length = _
      rw [psoSetupTopology, List.length_mapIdx]
      exact psoInitPopLoop_length p s.params.maxVelocity s.params.populationSize s.rng
    intro hnil
    rw [hnil] at hl
    simp at hl
    omega
  have hbestFinal : (psoInitializePopulation env p s).globalBest = some g2 := by
    rw [hinit]
    exact hstats2.1
  have hpopFinal : (psoInitializePopulation env p s).particles = t.particles := by
    rw [hinit]
    show (psoUpdateStats env (psoUpdateGlobalBest t)).particles = t.particles
    rw [hstats2.2.2, (psoUpdateGlobalBest_frame t).1]
  refine ⟨⟨by rw [hbestFinal]; rfl, by rw [hpopFinal]; exact htpop⟩, ?_, ?_⟩
  · rw [hbestFinal, hinit]
    show (psoUpdateStats env (psoUpdateGlobalBest t)).stats.history.bestFitness = _
    rw [hstats2.2.1, (psoUpdateGlobalBest_frame t).2.2]
    show s.stats.history.bestFitness ++ _ = _
    rw [hstats]
    rfl
  · intro x hx
    rw [hbestFinal]
    rw [hpopFinal] at hx
    obtain ⟨q, hq, rfl⟩ := List.mem_map.mp hx
    exact hqle q hq

theorem saIsBetter_irrefl (p : ProblemDef) (a : ℚ) : saIsBetter p a a = false := by
  unfold saIsBetter
  split_ifs <;> simp

theorem saIsBetter_not_of (p : ProblemDef) (a b : ℚ) (h : saIsBetter p a b = true) :
    saIsBetter p b a = false := by
  unfold saIsBetter at h ⊢
  split_ifs at h ⊢ <;> simp_all <;> linarith

theorem saIsBetter_trans_not (p : ProblemDef) (a b c : ℚ)
    (hab : saIsBetter p a b = false) (hbc : saIsBetter p b c = false) :
    saIsBetter p a c = false := by
  unfold saIsBetter at hab hbc ⊢
  split_ifs at hab hbc ⊢ <;> simp_all <;> linarith

theorem saUpdateStats_spec (t : SAState) (c2 b2 : Individual)
    (hc : t.current = some c2) (hb : t.best = some b2) (hpop : t.population ≠ []) :
    (saUpdateStats t).current = some c2 ∧ (saUpdateStats t).best = some b2 ∧
    (saUpdateStats t).population = t.population ∧
    (saUpdateStats t).stats.history.bestFitness =
      t.stats.history.bestFitness ++ [b2.fitness] := by
  unfold saUpdateStats
  rw [if_neg (by simpa [List.length_eq_zero] using hpop)]
  refine ⟨hc, hb, rfl, ?_⟩
  show t.stats.history.bestFitness ++ [(t.best.getD default).fitness] = _
  rw [hb]
  rfl

theorem saStep_monotone (env : Env) (p : ProblemDef) (s : SAState)
    (h : ∃ cur b, s.current = some cur ∧ s.best = some b ∧ s.population = [cur] ∧
      saIsBetter p cur.fitness b.fitness = false) :
    (∃ cur2 b2, (saStep env p s).current = some cur2 ∧ (saStep env p s).best = some b2 ∧
      (saStep env p s).population = [cur2] ∧
      saIsBetter p cur2.fitness b2.fitness = false) ∧
    (saStep env p s).stats.history.bestFitness =
      s.stats.history.bestFitness ++ [((saStep env p s).best.getD default).fitness] ∧
    saIsBetter p ((s.best.getD default).fitness)
      (((saStep env p s).best.getD default).fitness) = false ∧
    (∀ x ∈ (saStep env p s).population.map (fun ind => ind.fitness),
      saIsBetter p x (((saStep env p s).best.getD default).fitness) = false) := by
  obtain ⟨cur, b, hcur, hb, hpop, hnw⟩ := h
  have hstep : saStep env p s =
      (let nb := saGenerateNeighbor p s.params.neighborhoodSize cur.genotype s.rng
       let neighborFitness := saEvaluateFitness p nb.1
       let prob := saAcceptanceProbability env p s.temperature cur.fitness neighborFitness
       let d := nb.2.next
       let s1 :=
         if d.1 < prob then
           let newCur : Individual := ⟨nb.1, neighborFitness⟩
           let newBest :=
             if saIsBetter p neighborFitness ((s.best.getD default).fitness)
             then some newCur else s.best
           { s with current := some newCur, population := s.population.set 0 newCur,
                    best := newBest, rng := d.2 }
         else { s with rng := d.2 }
       let s2 := { s1 with temperature := s1.temperature * s1.params.coolingRate,
                           iteration := s1.iteration + 1 }
       saUpdateStats s2) := by
    rw [saStep, hcur]
  rw [hstep]
  dsimp only
  split_ifs with hacc hbet
  · -- accepted, neighbor better than stored best
    set nb := saGenerateNeighbor p s.params.neighborhoodSize cur.genotype s.rng with hnb
    set nf := saEvaluateFitness p nb.1 with hnf
    set newCur : Individual := ⟨nb.1, nf⟩ with hnewCur
    have hspec := saUpdateStats_spec
      { s with current := some newCur, population := s.population.set 0 newCur,
               best := some newCur, rng := nb.2.next.2, temperature := s.temperature * s.params.coolingRate,
               iteration := s.iteration + 1 }
      newCur newCur rfl rfl (by rw [hpop]; simp)
    rw [hb] at hbet
    simp only [Option.getD_some] at hbet
    refine ⟨⟨newCur, newCur, hspec.1, hspec.2.1, ?_, saIsBetter_irrefl p _⟩, ?_, ?_, ?_⟩
    · rw [hspec.2.2.1]
      show s.population.set 0 newCur = [newCur]
      rw [hpop]
      rfl
    · rw [hspec.2.1]
      simp only [Option.getD_some]
      exact hspec.2.2.2
    · rw [hspec.2.1, hb]
      simp only [Option.getD_some]
      exact saIsBetter_not_of p _ _ hbet
    · intro x hx
      rw [hspec.2.1]
      simp only [Option.getD_some]
      rw [hspec.2.2.1] at hx
      have : s.population.set 0 newCur = [newCur] := by rw [hpop]; rfl
      rw [this] at hx
      simp only [List.map_cons, List.map_nil, List.mem_singleton] at hx
      subst hx
      exact saIsBetter_irrefl p _
  · -- accepted, neighbor not better than stored best
    set nb := saGenerateNeighbor p s.params.neighborhoodSize cur.genotype s.rng with hnb
    set nf := saEvaluateFitness p nb.1 with hnf
    set newCur : Individual := ⟨nb.1, nf⟩ with hnewCur
    have hspec := saUpdateStats_spec
      { s with current := some newCur, population := s.population.set 0 newCur,
               best := s.best, rng := nb.2.next.2, temperature := s.temperature * s.params.coolingRate,
               iteration := s.iteration + 1 }
      newCur b rfl hb (by rw [hpop]; simp)
    rw [hb] at hbet
    simp only [Option.getD_some] at hbet
    have hbet2 : saIsBetter p nf b.fitness = false := by
      exact Bool.not_eq_true _ ▸ (by simpa using hbet)
    refine ⟨⟨newCur, b, hspec.1, hspec.2.1, ?_, hbet2⟩, ?_, ?_, ?_⟩
    · rw [hspec.2.2.1]
      show s.population.set 0 newCur = [newCur]
      rw [hpop]
      rfl
    · rw [hspec.2.1]
      simp only [Option.getD_some]
      exact hspec.2.2.2
    · rw [hspec.2.1, hb]
      simp only [Option.getD_some]
      exact saIsBetter_irrefl p _
    · intro x hx
      rw [hspec.2.1]
      simp only [Option.getD_some]
      rw [hspec.2.2.1] at hx
      have : s.population.set 0 newCur = [newCur] := by rw [hpop]; rfl
      rw [this] at hx
      simp only [List.map_cons, List.map_nil, List.mem_singleton] at hx
      subst hx
      exact hbet2
  · -- rejected
    set nb := saGenerateNeighbor p s.params.neighborhoodSize cur.genotype s.rng with hnb
    have hspec := saUpdateStats_spec
      { s with rng := nb.2.next.2, temperature := s.temperature * s.params.coolingRate,
               iteration := s.iteration + 1 }
      cur b hcur hb (by rw [hpop]; simp)
    refine ⟨⟨cur, b, hspec.1, hspec.2.1, ?_, hnw⟩, ?_, ?_, ?_⟩
    · rw [hspec.2.2.1]
      exact hpop
    · rw [hspec.2.1]
      simp only [Option.getD_some]
      exact hspec.2.2.2
    · rw [hspec.2.1, hb]
      simp only [Option.getD_some]
      exact saIsBetter_irrefl p _
    · intro x hx
      rw [hspec.2.1]
      simp only [Option.getD_some]
      rw [hspec.2.2.1, hpop] at hx
      simp only [List.map_cons, List.map_nil, List.mem_singleton] at hx
      subst hx
      exact hnw

theorem saInitializePopulation_good (p : ProblemDef) (s : SAState)
    (hstats : s.stats = emptyStats) :
    (∃ cur2 b2, (saInitializePopulation p s).current = some cur2 ∧
      (saInitializePopulation p s).best = some b2 ∧
      (saInitializePopulation p s).population = [cur2] ∧
      saIsBetter p cur2.fitness b2.fitness = false) ∧
    (saInitializePopulation p s).stats.history.bestFitness =
      [((saInitializePopulation p s).best.getD default).fitness] ∧
    (∀ x ∈ (saInitializePopulation p s).population.map (fun ind => ind.fitness),
      saIsBetter p x (((saInitializePopulation p s).best.getD default).fitness) = false) := by
  set g := ProblemDef.generateRandomSolution p s.rng with hg
  set cur : Individual := ⟨g.1, saEvaluateFitness p g.1⟩ with hcur
  have hinit : saInitializePopulation p s =
      saUpdateStats { s with current := some cur, best := some cur,
                             population := [cur], rng := g.2 } := rfl
  have hspec := saUpdateStats_spec
    { s with current := some cur, best := some cur, population := [cur], rng := g.2 }
    cur cur rfl rfl (by simp)
  rw [hinit]
  refine ⟨⟨cur, cur, hspec.1, hspec.2.1, ?_, saIsBetter_irrefl p _⟩, ?_, ?_⟩
  · rw [hspec.2.2.1]
  · rw [hspec.2.1]
    simp only [Option.getD_some]
    rw [hspec.2.2.2]
    show s.stats.history.bestFitness ++ _ = _
    rw [hstats]
    rfl
  · intro x hx
    rw [hspec.2.1]
    simp only [Option.getD_some]
    rw [hspec.2.2.1] at hx
    simp only [List.map_cons, List.map_nil, List.mem_singleton] at hx
    subst hx
    exact saIsBetter_irrefl p _

theorem esOffspringLoop_length (env : Env) (p : ProblemDef) (mu : ℕ) (pop : List Individual)
    (fuel : ℕ) : ∀ (n : ℕ) (ss : List ℚ) (r : Rng)
      (res : List Individual × (List ℚ × Rng)),
      esOffspringLoop env p mu pop fuel n ss r = some res → res.1.length = n := by
  intro n
  induction n with
  | zero =>
      intro ss r res h
      rw [esOffspringLoop] at h
      rw [← Option.some_inj.mp h]
      rfl
  | succ m ih =>
      intro ss r res h
      rw [esOffspringLoop] at h
      dsimp only at h
      cases hm : esMutation env p fuel
          ((pop.getD (floorIdx (r.next).1 mu) default).genotype) ss (r.next).2 with
      | none => rw [hm] at h; exact absurd h (by simp)
      | some mg =>
          rw [hm] at h
          dsimp only at h
          cases hrest : esOffspringLoop env p mu pop fuel m mg.2.1 mg.2.2 with
          | none => rw [hrest] at h; exact absurd h (by simp)
          | some rest =>
              rw [hrest] at h
              dsimp only at h
              rw [← Option.some_inj.mp h]
              dsimp only [List.length_cons]
              rw [ih mg.2.1 mg.2.2 rest hrest]

theorem esUpdateBest_spec (t : ESState) :
    ∃ b2, (esUpdateBest t).best = some b2 ∧
      (reduceBest t.population).fitness ≤ b2.fitness ∧
      (∀ b, t.best = some b → b.fitness ≤ b2.fitness) := by
  unfold esUpdateBest
  cases ht : t.best with
  | none =>
      dsimp only
      refine ⟨reduceBest t.population, rfl, le_refl _, ?_⟩
      intro b hbb
      exact Option.noConfusion hbb
  | some b =>
      dsimp only
      split_ifs with hgt
      · refine ⟨reduceBest t.population, rfl, le_refl _, ?_⟩
        intro b0 hb0
        rcases Option.some_inj.mp hb0 with rfl
        exact le_of_lt hgt
      · refine ⟨b, ht, le_of_not_lt hgt, ?_⟩
        intro b0 hb0
        rcases Option.some_inj.mp hb0 with rfl
        exact le_refl _

theorem esUpdateBest_frame (t : ESState) :
    (esUpdateBest t).population = t.population ∧ (esUpdateBest t).stats = t.stats ∧
    (esUpdateBest t).params = t.params := by
  unfold esUpdateBest
  cases t.best <;> dsimp only
  · exact ⟨rfl, rfl, rfl⟩
  · split_ifs <;> exact ⟨rfl, rfl, rfl⟩

theorem esUpdateStats_spec (env : Env) (t : ESState) (b2 : Individual)
    (hb : t.best = some b2) :
    (esUpdateStats env t).best = some b2 ∧
    (esUpdateStats env t).stats.history.bestFitness =
      t.stats.history.bestFitness ++ [b2.fitness] ∧
    (esUpdateStats env t).params = t.params := by
  refine ⟨hb, ?_, rfl⟩
  show t.stats.history.bestFitness ++
    [match t.best with | some b => b.fitness | none => 0] = _
  rw [hb]

theorem esStep_monotone (env : Env) (p : ProblemDef) (fuel : ℕ) (s s2 : ESState)
    (hrun : esStep env p fuel s = some s2)
    (hpop : s.population ≠ []) (hmu : 1 ≤ s.params.mu) (hlam : 1 ≤ s.params.lambda) :
    s2.population ≠ [] ∧ s2.params = s.params ∧
    ∃ b2, s2.best = some b2 ∧
      s2.stats.history.bestFitness = s.stats.history.bestFitness ++ [b2.fitness] ∧
      (∀ b, s.best = some b → b.fitness ≤ b2.fitness) ∧
      (∀ x ∈ s2.population, x.fitness ≤ b2.fitness) := by
  have hlen : ¬ s.population.length = 0 := by
    simpa [List.length_eq_zero] using hpop
  rw [esStep, if_neg hlen] at hrun
  cases hoff : esOffspringLoop env p s.params.mu s.population fuel s.params.lambda
      s.stepSizes s.rng with
  | none => rw [hoff] at hrun; exact absurd hrun (by simp)
  | some off =>
      rw [hoff] at hrun
      dsimp only at hrun
      set newPop : List Individual :=
        (match s.params.selectionType with
          | ESSelection.plus =>
              ((s.population ++ off.1).mergeSort fitnessDesc).take s.params.mu
          | ESSelection.comma =>
              (off.1.mergeSort fitnessDesc).take s.params.mu) with hnp
      set s1 : ESState :=
        { s with population := newPop, stepSizes := off.2.1, rng := off.2.2 } with hs1
      have hs2 : s2 = { (esUpdateStats env (esUpdateBest s1)) with
          generation := (esUpdateStats env (esUpdateBest s1)).generation + 1 } :=
        (Option.some_inj.mp hrun).symm
      have hnplen : 1 ≤ newPop.length := by
        rw [hnp]
        cases hsel : s.params.selectionType <;> dsimp only
        · rw [List.length_take, List.length_mergeSort, List.length_append]
          have : 1 ≤ s.population.length := by
            rcases List.length_pos.mpr hpop with h1
            omega
          omega
        · rw [List.length_take, List.length_mergeSort,
            esOffspringLoop_length env p s.params.mu s.population fuel
              s.params.lambda s.stepSizes s.rng off hoff]
          omega
      have hs1pop : s1.population ≠ [] := by
        intro hnil
        have : s1.population.length = 0 := by rw [hnil]; rfl
        have h1 : s1.population.length = newPop.length := rfl
        omega
      obtain ⟨b2, hb2, hrble, hble⟩ := esUpdateBest_spec s1
      have hstats := esUpdateStats_spec env (esUpdateBest s1) b2 hb2
      have hbestFinal : s2.best = some b2 := by
        rw [hs2]
        exact hstats.1
      have hpopFinal : s2.population = s1.population := by
        rw [hs2]
        show (esUpdateStats env (esUpdateBest s1)).population = s1.population
        rw [esUpdateStats_population, (esUpdateBest_frame s1).1]
      have hparamsFinal : s2.params = s.params := by
        rw [hs2]
        show (esUpdateStats env (esUpdateBest s1)).params = s.params
        rw [hstats.2.2, (esUpdateBest_frame s1).2.2]
      refine ⟨by rw [hpopFinal]; exact hs1pop, hparamsFinal, b2, hbestFinal, ?_, ?_, ?_⟩
      · rw [hs2]
        show (esUpdateStats env (esUpdateBest s1)).stats.history.bestFitness = _
        rw [hstats.2.1, (esUpdateBest_frame s1).2.1]
      · intro b hbs
        exact hble b hbs
      · intro x hx
        rw [hpopFinal] at hx
        exact le_trans (reduceBest_ge s1.population x hx) hrble

theorem esStep_inv (env : Env) (p : ProblemDef) (fuel : ℕ) (s s1 : ESState)
    (hst : esStep env p fuel s = some s1) (hInv : esHistInv s) : esHistInv s1 := by
  obtain ⟨hmu, hlam, hpop, hphase⟩ := hInv
  obtain ⟨hpop1, hparams1, b2, hb2, hhist, hble, hpople⟩ :=
    esStep_monotone env p fuel s s1 hst hpop hmu hlam
  refine ⟨by rw [hparams1]; exact hmu, by rw [hparams1]; exact hlam, hpop1, Or.inr ?_⟩
  rcases hphase with ⟨hbn, hh⟩ | ⟨b, t, hbs, hh, hlastt, hchain, hallt, hallp⟩
  · refine ⟨b2, [b2.fitness], hb2, ?_, by simp, List.chain'_singleton _, ?_, hpople⟩
    · rw [hhist, hh]
      rfl
    · intro x hx
      rcases List.mem_singleton.mp hx with rfl
      exact le_refl _
  · refine ⟨b2, t ++ [b2.fitness], hb2, ?_, ?_, ?_, ?_, hpople⟩
    · rw [hhist, hh]
      rfl
    · exact List.getLast?_concat _
    · apply List.Chain'.append hchain (List.chain'_singleton _)
      intro x hx y hy
      rw [hlastt] at hx
      rcases Option.mem_some_iff.mp hx with rfl
      rcases Option.mem_some_iff.mp (by simpa using hy) with rfl
      exact hble b hbs
    · intro x hx
      rcases List.mem_append.mp hx with h1 | h2
      · exact le_trans (hallt x h1) (hble b hbs)
      · rcases List.mem_singleton.mp h2 with rfl
        exact le_refl _

theorem esRun_inv (env : Env) (p : ProblemDef) :
    ∀ (fuels : List ℕ) (s sk : ESState),
      esRun env p s fuels = some sk → esHistInv s → esHistInv sk := by
  intro fuels
  induction fuels with
  | nil =>
      intro s sk hrun hInv
      rw [esRun] at hrun
      rw [← Option.some_inj.mp hrun]
      exact hInv
  | cons f fs ih =>
      intro s sk hrun hInv
      rw [esRun] at hrun
      cases hst : esStep env p f s with
      | none => rw [hst] at hrun; exact absurd hrun (by simp)
      | some s1 =>
          rw [hst] at hrun
          exact ih s1 sk hrun (esStep_inv env p f s s1 hst hInv)

theorem esInitializePopulation_inv (env : Env) (p : ProblemDef) (s1 : ESState)
    (hb : s1.best = none) (hst : s1.stats = emptyStats)
    (hmu : 1 ≤ s1.params.mu) (hlam : 1 ≤ s1.params.lambda) :
    esHistInv (esInitializePopulation env p s1) := by
  have hshape := esInitializePopulation_shape env p s1
  have hhist := esInitializePopulation_hist env p s1 hb
  refine ⟨by rw [hshape.2]; exact hmu, by rw [hshape.2]; exact hlam, ?_,
    Or.inl ⟨hhist.2.2, ?_⟩⟩
  · intro hnil
    have hlen := hshape.1
    rw [hnil] at hlen
    simp at hlen
    omega
  · rw [hhist.1, hst]
    rfl

theorem gaGetBest_of_some (s : GAState) (b : Individual) (hb : s.best = some b) :
    gaGetBest s = b := by
  unfold gaGetBest
  rw [hb]

theorem deGetBest_of_some (s : DEState) (b : Individual) (hb : s.best = some b) :
    deGetBest s = b := by
  unfold deGetBest
  rw [hb]

theorem esGetBest_of_some (s : ESState) (b : Individual) (hb : s.best = some b) :
    esGetBest s = b := by
  unfold esGetBest
  rw [hb]

theorem esGetBest_of_none (s : ESState) (hb : s.best = none) (hpop : s.population ≠ []) :
    esGetBest s = reduceBest s.population := by
  unfold esGetBest
  rw [hb]
  dsimp only
  rw [if_pos (show s.population.length > 0 from List.length_pos.mpr hpop)]

theorem psoGetBest_of_some (s : PSOState) (g : Individual) (hg : s.globalBest = some g) :
    psoGetBest s = g := by
  unfold psoGetBest
  rw [hg]

theorem saGetBest_of_some (s : SAState) (b : Individual) (hb : s.best = some b) :
    saGetBest s = b := by
  unfold saGetBest
  rw [hb]
  rfl

/-- Claim C1, amended: for GA, DE, PSO and SA, along every run of `step()`
from a freshly initialized state the recorded best-fitness history never
regresses (it is a chain in the algorithm's internal better-than ordering:
`≤` on the internally maximized fitness for GA, DE and PSO, and the
direction-aware `isBetter` for SA), its last entry is the fitness of
`getBest()`, and `getBest()` dominates every history entry and every
member of the current population — even when the population no longer
contains it.  For ES the same holds from history index 1 on: the entry at
index 0 is the constant `0` placeholder that `initializePopulation`
records while `best` is still `null`.  (For ABC the claim is false:
`findBest()` overwrites the stored best with the current population's
best, so after a scout replacement both the history and `getBest()`
regress — see the separate counterexample.) -/
theorem best_fitness_never_regresses :
    (∀ (env : Env) (p : ProblemDef) (s : GAState) (k : ℕ) (sk : GAState),
      1 ≤ s.params.populationSize → s.best = none → s.stats = emptyStats →
      sk = (gaStep env p)^[k] (gaInitializePopulation env p s) →
      List.Chain' (· ≤ ·) sk.stats.history.bestFitness ∧
      sk.stats.history.bestFitness.getLast? = some (gaGetBest sk).fitness ∧
      (∀ x ∈ sk.stats.history.bestFitness, x ≤ (gaGetBest sk).fitness) ∧
      (∀ ind ∈ sk.population, ind.fitness ≤ (gaGetBest sk).fitness)) ∧
    (∀ (env : Env) (p : ProblemDef) (s : DEState) (k : ℕ) (sk : DEState),
      1 ≤ s.params.populationSize → s.best = none → s.stats = emptyStats →
      sk = (deStep env p)^[k] (deInitializePopulation env p s) →
      List.Chain' (· ≤ ·) sk.stats.history.bestFitness ∧
      sk.stats.history.bestFitness.getLast? = some (deGetBest sk).fitness ∧
      (∀ x ∈ sk.stats.history.bestFitness, x ≤ (deGetBest sk).fitness) ∧
      (∀ ind ∈ sk.population, ind.fitness ≤ (deGetBest sk).fitness)) ∧
    (∀ (env : Env) (p : ProblemDef) (s : PSOState) (k : ℕ) (sk : PSOState),
      1 ≤ s.params.populationSize → s.globalBest = none → s.stats = emptyStats →
      sk = (psoStep env p)^[k] (psoInitializePopulation env p s) →
      List.Chain' (· ≤ ·) sk.stats.history.bestFitness ∧
      sk.stats.history.bestFitness.getLast? = some (psoGetBest sk).fitness ∧
      (∀ x ∈ sk.stats.history.bestFitness, x ≤ (psoGetBest sk).fitness) ∧
      (∀ q ∈ sk.particles, q.fitness ≤ (psoGetBest sk).fitness)) ∧
    (∀ (env : Env) (p : ProblemDef) (s : SAState) (k : ℕ) (sk : SAState),
      s.stats = emptyStats →
      sk = (saStep env p)^[k] (saInitializePopulation p s) →
      List.Chain' (fun x y => saIsBetter p x y = false) sk.stats.history.bestFitness ∧
      sk.stats.history.bestFitness.getLast? = some (saGetBest sk).fitness ∧
      (∀ x ∈ sk.stats.history.bestFitness, saIsBetter p x (saGetBest sk).fitness = false) ∧
      (∀ ind ∈ sk.population, saIsBetter p ind.fitness (saGetBest sk).fitness = false)) ∧
    (∀ (env : Env) (p : ProblemDef) (s : ESState) (patch : ESParamsPatch)
        (fuels : List ℕ) (sk : ESState),
      1 ≤ (s.params.merge (esSyncPatch patch)).mu →
      1 ≤ (s.params.merge (esSyncPatch patch)).lambda →
      esRun env p (esInitialize env p s patch) fuels = some sk →
      ∃ t, sk.stats.history.bestFitness = 0 :: t ∧
        List.Chain' (· ≤ ·) t ∧
        (t ≠ [] → t.getLast? = some (esGetBest sk).fitness) ∧
        (∀ x ∈ t, x ≤ (esGetBest sk).fitness) ∧
        (∀ ind ∈ sk.population, ind.fitness ≤ (esGetBest sk).fitness)) := by
  refine ⟨?_, ?_, ?_, ?_, ?_⟩
  · -- Genetic Algorithm
    intro env p s k sk hps hb hstats hsk
    subst hsk
    have hmono := hist_mono_iterate (gaStep env p)
      (fun u => u.stats.history.bestFitness)
      (fun u => (u.best.getD default).fitness)
      (fun u => u.population.map (fun ind => ind.fitness))
      (· ≤ ·)
      (fun u => u.best.isSome ∧ u.population ≠ [])
      (fun a => le_refl a) (fun a b c hab hbc => le_trans hab hbc)
      (fun u hInv => gaStep_monotone env p u hInv)
      (gaInitializePopulation env p s)
      (let h0 := gaInitializePopulation_good env p s hps hb hstats
       ⟨h0.1, h0.2.1, h0.2.2⟩) k
    obtain ⟨hInv, hchain, hlast, hall, hpopb⟩ := hmono
    obtain ⟨b, hbsk⟩ := Option.isSome_iff_exists.mp hInv.1
    have hgb := gaGetBest_of_some _ b hbsk
    rw [hbsk] at hlast hall hpopb
    simp only [Option.getD_some] at hlast hall hpopb
    refine ⟨hchain, ?_, ?_, ?_⟩
    · rw [hgb]; exact hlast
    · intro x hx; rw [hgb]; exact hall x hx
    · intro ind hind
      rw [hgb]
      exact hpopb ind.fitness (List.mem_map_of_mem (fun ind => ind.fitness) hind)
  · -- Differential Evolution
    intro env p s k sk hps hb hstats hsk
    subst hsk
    have hmono := hist_mono_iterate (deStep env p)
      (fun u => u.stats.history.bestFitness)
      (fun u => (u.best.getD default).fitness)
      (fun u => u.population.map (fun ind => ind.fitness))
      (· ≤ ·)
      (fun u => u.best.isSome ∧ u.population ≠ [])
      (fun a => le_refl a) (fun a b c hab hbc => le_trans hab hbc)
      (fun u hInv => deStep_monotone env p u hInv)
      (deInitializePopulation env p s)
      (let h0 := deInitializePopulation_good env p s hps hb hstats
       ⟨h0.1, h0.2.1, h0.2.2⟩) k
    obtain ⟨hInv, hchain, hlast, hall, hpopb⟩ := hmono
    obtain ⟨b, hbsk⟩ := Option.isSome_iff_exists.mp hInv.1
    have hgb := deGetBest_of_some _ b hbsk
    rw [hbsk] at hlast hall hpopb
    simp only [Option.getD_some] at hlast hall hpopb
    refine ⟨hchain, ?_, ?_, ?_⟩
    · rw [hgb]; exact hlast
    · intro x hx; rw [hgb]; exact hall x hx
    · intro ind hind
      rw [hgb]
      exact hpopb ind.fitness (List.mem_map_of_mem (fun ind => ind.fitness) hind)
  · -- Particle Swarm Optimization
    intro env p s k sk hps hb hstats hsk
    subst hsk
    have hmono := hist_mono_iterate (psoStep env p)
      (fun u => u.stats.history.bestFitness)
      (fun u => (u.globalBest.getD default).fitness)
      (fun u => u.particles.map (fun q => q.fitness))
      (· ≤ ·)
      (fun u => u.globalBest.isSome ∧ u.particles ≠ [])
      (fun a => le_refl a) (fun a b c hab hbc => le_trans hab hbc)
      (fun u hInv => psoStep_monotone env p u hInv)
      (psoInitializePopulation env p s)
      (let h0 := psoInitializePopulation_good env p s hps hb hstats
       ⟨h0.1, h0.2.1, h0.2.2⟩) k
    obtain ⟨hInv, hchain, hlast, hall, hpopb⟩ := hmono
    obtain ⟨g, hbsk⟩ := Option.isSome_iff_exists.mp hInv.1
    have hgb := psoGetBest_of_some _ g hbsk
    rw [hbsk] at hlast hall hpopb
    simp only [Option.getD_some] at hlast hall hpopb
    refine ⟨hchain, ?_, ?_, ?_⟩
    · rw [hgb]; exact hlast
    · intro x hx; rw [hgb]; exact hall x hx
    · intro q hq
      rw [hgb]
      exact hpopb q.fitness (List.mem_map_of_mem (fun q => q.fitness) hq)
  · -- Simulated Annealing
    intro env p s k sk hstats hsk
    subst hsk
    have hmono := hist_mono_iterate (saStep env p)
      (fun u => u.stats.history.bestFitness)
      (fun u => (u.best.getD default).fitness)
      (fun u => u.population.map (fun ind => ind.fitness))
      (fun x y => saIsBetter p x y = false)
      (fun u => ∃ cur b, u.current = some cur ∧ u.best = some b ∧
        u.population = [cur] ∧ saIsBetter p cur.fitness b.fitness = false)
      (fun a => saIsBetter_irrefl p a)
      (fun a b c hab hbc => saIsBetter_trans_not p a b c hab hbc)
      (fun u hInv => saStep_monotone env p u hInv)
      (saInitializePopulation p s)
      (let h0 := saInitializePopulation_good p s hstats
       ⟨h0.1, h0.2.1, h0.2.2⟩) k
    obtain ⟨hInv, hchain, hlast, hall, hpopb⟩ := hmono
    obtain ⟨cur, b, _, hbsk, _, _⟩ := hInv
    have hgb := saGetBest_of_some _ b hbsk
    rw [hbsk] at hlast hall hpopb
    simp only [Option.getD_some] at hlast hall hpopb
    refine ⟨hchain, ?_, ?_, ?_⟩
    · rw [hgb]; exact hlast
    · intro x hx; rw [hgb]; exact hall x hx
    · intro ind hind
      rw [hgb]
      exact hpopb ind.fitness (List.mem_map_of_mem (fun ind => ind.fitness) hind)
  · -- Evolution Strategy
    intro env p s patch fuels sk hmu hlam hrun
    have hinv0 : esHistInv (esInitialize env p s patch) := by
      unfold esInitialize esReset
      exact esInitializePopulation_inv env p _ rfl rfl hmu hlam
    have hinvk : esHistInv sk := esRun_inv env p fuels _ sk hrun hinv0
    obtain ⟨_, _, hpopne, hphase⟩ := hinvk
    rcases hphase with ⟨hbn, hh⟩ | ⟨b, t, hbs, hh, hlastt, hchain, hallt, hallp⟩
    · refine ⟨[], hh, List.chain'_nil, ?_, ?_, ?_⟩
      · intro hne; exact absurd rfl hne
      · intro x hx; exact absurd hx (List.not_mem_nil x)
      · intro ind hind
        rw [esGetBest_of_none sk hbn hpopne]
        exact reduceBest_ge sk.population ind hind
    · have hgb := esGetBest_of_some sk b hbs
      refine ⟨t, hh, hchain, ?_, ?_, ?_⟩
      · intro hne; rw [hgb]; exact hlastt
      · intro x hx; rw [hgb]; exact hallt x hx
      · intro ind hind; rw [hgb]; exact hallp ind hind

theorem best_fitness_never_regresses_witness :
    (List.Chain' (· ≤ ·)
        (gaInitializePopulation zeroEnv (sphereProblem 1) c1GaState).stats.history.bestFitness ∧
      (gaInitializePopulation zeroEnv (sphereProblem 1)
          c1GaState).stats.history.bestFitness.getLast? =
        some (gaGetBest (gaInitializePopulation zeroEnv (sphereProblem 1) c1GaState)).fitness ∧
      (∀ x ∈ (gaInitializePopulation zeroEnv (sphereProblem 1)
          c1GaState).stats.history.bestFitness,
        x ≤ (gaGetBest (gaInitializePopulation zeroEnv (sphereProblem 1) c1GaState)).fitness) ∧
      (∀ ind ∈ (gaInitializePopulation zeroEnv (sphereProblem 1) c1GaState).population,
        ind.fitness ≤
          (gaGetBest (gaInitializePopulation zeroEnv (sphereProblem 1) c1GaState)).fitness)) ∧
    (List.Chain' (· ≤ ·)
        (deInitializePopulation zeroEnv (sphereProblem 1) c1DeState).stats.history.bestFitness ∧
      (deInitializePopulation zeroEnv (sphereProblem 1)
          c1DeState).stats.history.bestFitness.getLast? =
        some (deGetBest (deInitializePopulation zeroEnv (sphereProblem 1) c1DeState)).fitness ∧
      (∀ x ∈ (deInitializePopulation zeroEnv (sphereProblem 1)
          c1DeState).stats.history.bestFitness,
        x ≤ (deGetBest (deInitializePopulation zeroEnv (sphereProblem 1) c1DeState)).fitness) ∧
      (∀ ind ∈ (deInitializePopulation zeroEnv (sphereProblem 1) c1DeState).population,
        ind.fitness ≤
          (deGetBest (deInitializePopulation zeroEnv (sphereProblem 1) c1DeState)).fitness)) ∧
    (List.Chain' (· ≤ ·)
        (psoInitializePopulation zeroEnv (sphereProblem 1) c1PsoState).stats.history.bestFitness ∧
      (psoInitializePopulation zeroEnv (sphereProblem 1)
          c1PsoState).stats.history.bestFitness.getLast? =
        some (psoGetBest (psoInitializePopulation zeroEnv (sphereProblem 1) c1PsoState)).fitness ∧
      (∀ x ∈ (psoInitializePopulation zeroEnv (sphereProblem 1)
          c1PsoState).stats.history.bestFitness,
        x ≤ (psoGetBest (psoInitializePopulation zeroEnv (sphereProblem 1) c1PsoState)).fitness) ∧
      (∀ q ∈ (psoInitializePopulation zeroEnv (sphereProblem 1) c1PsoState).particles,
        q.fitness ≤
          (psoGetBest (psoInitializePopulation zeroEnv (sphereProblem 1) c1PsoState)).fitness)) ∧
    (List.Chain' (fun x y => saIsBetter (sphereProblem 1) x y = false)
        (saInitializePopulation (sphereProblem 1) c1SaState).stats.history.bestFitness ∧
      (saInitializePopulation (sphereProblem 1)
          c1SaState).stats.history.bestFitness.getLast? =
        some (saGetBest (saInitializePopulation (sphereProblem 1) c1SaState)).fitness ∧
      (∀ x ∈ (saInitializePopulation (sphereProblem 1) c1SaState).stats.history.bestFitness,
        saIsBetter (sphereProblem 1) x
          (saGetBest (saInitializePopulation (sphereProblem 1) c1SaState)).fitness = false) ∧
      (∀ ind ∈ (saInitializePopulation (sphereProblem 1) c1SaState).population,
        saIsBetter (sphereProblem 1) ind.fitness
          (saGetBest (saInitializePopulation (sphereProblem 1) c1SaState)).fitness = false)) ∧
    (∃ t, (esInitialize zeroEnv (sphereProblem 1) c1EsState
          ({} : ESParamsPatch)).stats.history.bestFitness = 0 :: t ∧
      List.Chain' (· ≤ ·) t ∧
      (t ≠ [] → t.getLast? =
        some (esGetBest (esInitialize zeroEnv (sphereProblem 1) c1EsState
          ({} : ESParamsPatch))).fitness) ∧
      (∀ x ∈ t, x ≤ (esGetBest (esInitialize zeroEnv (sphereProblem 1) c1EsState
          ({} : ESParamsPatch))).fitness) ∧
      (∀ ind ∈ (esInitialize zeroEnv (sphereProblem 1) c1EsState
          ({} : ESParamsPatch)).population,
        ind.fitness ≤ (esGetBest (esInitialize zeroEnv (sphereProblem 1) c1EsState
          ({} : ESParamsPatch))).fitness)) :=
  ⟨best_fitness_never_regresses.1 zeroEnv (sphereProblem 1) c1GaState 0
      (gaInitializePopulation zeroEnv (sphereProblem 1) c1GaState) (by decide) rfl rfl rfl,
    best_fitness_never_regresses.2.1 zeroEnv (sphereProblem 1) c1DeState 0
      (deInitializePopulation zeroEnv (sphereProblem 1) c1DeState) (by decide) rfl rfl rfl,
    best_fitness_never_regresses.2.2.1 zeroEnv (sphereProblem 1) c1PsoState 0
      (psoInitializePopulation zeroEnv (sphereProblem 1) c1PsoState) (by decide) rfl rfl rfl,
    best_fitness_never_regresses.2.2.2.1 zeroEnv (sphereProblem 1) c1SaState 0
      (saInitializePopulation (sphereProblem 1) c1SaState) rfl rfl,
    best_fitness_never_regresses.2.2.2.2 zeroEnv (sphereProblem 1) c1EsState
      ({} : ESParamsPatch) []
      (esInitialize zeroEnv (sphereProblem 1) c1EsState ({} : ESParamsPatch))
      (by decide) (by decide) rfl⟩
